import Mathlib

/-!
Verification of the chart XML writer and series-data rewriter of a
python-pptx fork.  The Lean definitions below are a shallow embedding of
`pptx/chart/xmlwriter.py` and `pptx/chart/chart.py`: string-template
methods become Lean functions producing `String`, Python exceptions become
`Except String` / `Option` results, and the lxml element tree mutated by
the series rewriters becomes an explicit tree of plot-group and series
records.
-/

set_option maxHeartbeats 1000000

set_option maxRecDepth 4096

/-- Substring occurrence as a proposition: `pat` occurs contiguously in `s`. -/
def occursIn (pat s : String) : Prop :=
  ∃ a b : String, s = a ++ pat ++ b

/-- Boolean substring check on character lists (used to decide `occursIn`
on concrete strings). -/
def subListB (pat : List Char) : List Char → Bool
  | [] => pat.isEmpty
  | c :: rest => pat.isPrefixOf (c :: rest) || subListB pat rest

/-- Boolean substring check on strings. -/
def containsSub (s pat : String) : Bool :=
  subListB pat.data s.data

/-- Python `xml.sax.saxutils.escape`: replace the ampersand, less-than and
greater-than characters by their XML entities. -/
def escape (s : String) : String :=
  String.mk (s.data.foldr
    (fun c acc =>
      if c = '&' then '&' :: 'a' :: 'm' :: 'p' :: ';' :: acc
      else if c = '<' then '&' :: 'l' :: 't' :: ';' :: acc
      else if c = '>' then '&' :: 'g' :: 't' :: ';' :: acc
      else c :: acc) [])

/-- Python string formatting of an optional integer: `None` renders as the
text `None`, matching how `str.format` renders the Python `None` object. -/
def pyStr : Option Nat → String
  | some n => toString n
  | none => "None"

/-- The `xmlns:c` namespace declaration produced by `nsdecls('c')`. -/
def nsdecls_c : String :=
  "xmlns:c=\"http://schemas.openxmlformats.org/drawingml/2006/chart\""

/-- The supported chart-type enumeration `XL_CHART_TYPE`.
Modelled from the spec: the closed `ChartType` enumeration lives in
`pptx/enum/chart.py`, which is not under `src/`; the 29 member values used
by the dispatch tables are reproduced here, together with two
representative members of the wider 73-value enumeration that have no
dispatch entry (the source comment in `SeriesXmlRewriterFactory` mentions
stock-type charts among the unregistered kinds). -/
inductive XL_CHART_TYPE
  | AREA
  | AREA_STACKED
  | AREA_STACKED_100
  | BAR_CLUSTERED
  | BAR_STACKED
  | BAR_STACKED_100
  | BUBBLE
  | BUBBLE_THREE_D_EFFECT
  | COLUMN_CLUSTERED
  | COLUMN_STACKED
  | COLUMN_STACKED_100
  | DOUGHNUT
  | DOUGHNUT_EXPLODED
  | LINE
  | LINE_MARKERS
  | LINE_MARKERS_STACKED
  | LINE_MARKERS_STACKED_100
  | LINE_STACKED
  | LINE_STACKED_100
  | PIE
  | PIE_EXPLODED
  | RADAR
  | RADAR_FILLED
  | RADAR_MARKERS
  | XY_SCATTER
  | XY_SCATTER_LINES
  | XY_SCATTER_LINES_NO_MARKERS
  | XY_SCATTER_SMOOTH
  | XY_SCATTER_SMOOTH_NO_MARKERS
  | STOCK_HLC
  | SURFACE
deriving DecidableEq

/-- Category labels of a category-shaped chart.
Modelled from the spec: the `Categories` object lives in
`pptx/chart/data.py`, which is not under `src/`.  A `Categories` instance
is homogeneous: flat string labels, numeric values, date values (both with
a number-format code), or multi-level label tuples.  The numeric and date
leaf values are carried here already rendered to text, abstracting
`numeric_str_val` (including its date-epoch handling) of the missing
module. -/
inductive CategoryData
  | strings (labels : List String)
  | numeric (number_format : String) (vals : List String)
  | dates (number_format : String) (vals : List String)
  | multiLevel (leaf_count : Nat) (levels : List (List (Nat × String)))
deriving DecidableEq

def CategoryData.are_numeric : CategoryData → Bool
  | .numeric _ _ => true
  | .dates _ _ => true
  | _ => false

def CategoryData.are_dates : CategoryData → Bool
  | .dates _ _ => true
  | _ => false

def CategoryData.depth : CategoryData → Nat
  | .multiLevel _ lvls => lvls.length
  | _ => 1

def CategoryData.leaf_count : CategoryData → Nat
  | .strings ls => ls.length
  | .numeric _ vs => vs.length
  | .dates _ vs => vs.length
  | .multiLevel n _ => n

def CategoryData.number_format : CategoryData → String
  | .numeric nf _ => nf
  | .dates nf _ => nf
  | _ => "General"

/-- Leaf labels of flat string categories (the only kind for which the
flat-label template is reachable). -/
def CategoryData.leafLabels : CategoryData → List String
  | .strings ls => ls
  | _ => []

/-- Rendered leaf values of numeric or date categories. -/
def CategoryData.numericVals : CategoryData → List String
  | .numeric _ vs => vs
  | .dates _ vs => vs
  | _ => []

def CategoryData.levels : CategoryData → List (List (Nat × String))
  | .multiLevel _ lvls => lvls
  | _ => []

/-- One series of a category-shaped chart.
Modelled from the spec: `CategorySeriesData` lives in
`pptx/chart/data.py`, which is not under `src/`.  Numeric values are
carried already rendered to text; a missing (`None`) value is `none`. -/
structure CategorySeriesData where
  name : String
  name_ref : String
  categories : CategoryData
  categories_ref : String
  values_ref : String
  number_format : String
  values : List (Option String)
  index : Nat
deriving DecidableEq

/-- One series of an XY (scatter) chart.
Modelled from the spec: `XySeriesData` lives in `pptx/chart/data.py`,
which is not under `src/`. -/
structure XySeriesData where
  name : String
  name_ref : String
  x_values : List (Option String)
  y_values : List (Option String)
  x_values_ref : String
  y_values_ref : String
  number_format : String
  index : Nat
deriving DecidableEq

/-- One series of a bubble chart: an XY series plus the bubble-size
channel.  Modelled from the spec: `BubbleSeriesData` lives in
`pptx/chart/data.py`, which is not under `src/`. -/
structure BubbleSeriesData extends XySeriesData where
  bubble_sizes : List (Option String)
  bubble_sizes_ref : String
deriving DecidableEq

/-- The chart data attached to a chart, by data shape.  Modelled from the
spec: `CategoryChartData` / `XyChartData` / `BubbleChartData` live in
`pptx/chart/data.py`, which is not under `src/`.  The
`isinstance(..., CategoryChartData)` test in `AxesXmlWriter` becomes a
match on the constructor. -/
inductive ChartData
  | category (categories : CategoryData) (series : List CategorySeriesData)
  | xy (series : List XySeriesData)
  | bubble (series : List BubbleSeriesData)
deriving DecidableEq

/-- Python `len(chart_data)`: the number of series. -/
def ChartData.length : ChartData → Nat
  | .category _ sers => sers.length
  | .xy sers => sers.length
  | .bubble sers => sers.length

/-- The `c:pt` element template used by `_BaseSeriesXmlWriter.pt_xml`. -/
def _BaseSeriesXmlWriter.pt_tmpl (idx : Nat) (value : String) : String :=
  s!"                <c:pt idx=\"{idx}\">\n"
  ++ s!"                  <c:v>{value}</c:v>\n"
  ++ "                </c:pt>\n"

/-- The leading `c:ptCount` line of `_BaseSeriesXmlWriter.pt_xml`. -/
def _BaseSeriesXmlWriter.ptCount_line (pt_count : Nat) : String :=
  s!"                <c:ptCount val=\"{pt_count}\"/>\n"

/-- The accumulation loop of `_BaseSeriesXmlWriter.pt_xml`: enumerate the
values, skipping `None` entries. -/
def _BaseSeriesXmlWriter.pt_loop (idx : Nat) (values : List (Option String))
    (acc : String) : String :=
  match values with
  | [] => acc
  | none :: rest => _BaseSeriesXmlWriter.pt_loop (idx + 1) rest acc
  | some v :: rest =>
      _BaseSeriesXmlWriter.pt_loop (idx + 1) rest
        (acc ++ _BaseSeriesXmlWriter.pt_tmpl idx v)

/-- `_BaseSeriesXmlWriter.pt_xml`: the `c:ptCount` line followed by one
`c:pt` element per non-missing value. -/
def _BaseSeriesXmlWriter.pt_xml (values : List (Option String)) : String :=
  _BaseSeriesXmlWriter.pt_loop 0 values
    (_BaseSeriesXmlWriter.ptCount_line values.length)

/-- `_BaseSeriesXmlWriter.numRef_xml`: a `c:numRef` element holding the
worksheet reference, format code and point cache for *values*. -/
def _BaseSeriesXmlWriter.numRef_xml (wksht_ref number_format : String)
    (values : List (Option String)) : String :=
  "            <c:numRef>\n"
  ++ s!"              <c:f>{wksht_ref}</c:f>\n"
  ++ "              <c:numCache>\n"
  ++ s!"                <c:formatCode>{number_format}</c:formatCode>\n"
  ++ _BaseSeriesXmlWriter.pt_xml values
  ++ "              </c:numCache>\n"
  ++ "            </c:numRef>\n"

/-- `_BaseSeriesXmlWriter._tx_tmpl` filled in: the `c:tx` element holding
the series name and its worksheet reference. -/
def _BaseSeriesXmlWriter.tx_tmpl (nsd wksht_ref series_name : String) : String :=
  "          <c:tx" ++ nsd ++ ">\n"
  ++ "            <c:strRef>\n"
  ++ s!"              <c:f>{wksht_ref}</c:f>\n"
  ++ "              <c:strCache>\n"
  ++ "                <c:ptCount val=\"1\"/>\n"
  ++ "                <c:pt idx=\"0\">\n"
  ++ s!"                  <c:v>{series_name}</c:v>\n"
  ++ "                </c:pt>\n"
  ++ "              </c:strCache>\n"
  ++ "            </c:strRef>\n"
  ++ "          </c:tx>\n"

/-- `tx_xml` for a category series (empty namespace declaration). -/
def CategorySeriesData.tx_xml (sd : CategorySeriesData) : String :=
  _BaseSeriesXmlWriter.tx_tmpl "" sd.name_ref (escape sd.name)

/-- `tx` for a category series: the oxml variant carrying the namespace
declaration (the string parsed by `parse_xml` in the source). -/
def CategorySeriesData.tx_oxml (sd : CategorySeriesData) : String :=
  _BaseSeriesXmlWriter.tx_tmpl (" " ++ nsdecls_c) sd.name_ref (escape sd.name)

/-- `tx_xml` for an XY series. -/
def XySeriesData.tx_xml (sd : XySeriesData) : String :=
  _BaseSeriesXmlWriter.tx_tmpl "" sd.name_ref (escape sd.name)

/-- `tx` for an XY series, with namespace declaration. -/
def XySeriesData.tx_oxml (sd : XySeriesData) : String :=
  _BaseSeriesXmlWriter.tx_tmpl (" " ++ nsdecls_c) sd.name_ref (escape sd.name)

/-- The per-point loop of `_CategorySeriesXmlWriter._cat_num_pt_xml`
(numeric or date category labels, already rendered to text). -/
def _CategorySeriesXmlWriter.cat_num_pt_loop (idx : Nat) :
    List String → String
  | [] => ""
  | v :: rest =>
      s!"                <c:pt idx=\"{idx}\">\n"
      ++ s!"                  <c:v>{v}</c:v>\n"
      ++ "                </c:pt>\n"
      ++ _CategorySeriesXmlWriter.cat_num_pt_loop (idx + 1) rest

/-- `_CategorySeriesXmlWriter._cat_num_pt_xml`. -/
def _CategorySeriesXmlWriter.cat_num_pt_xml (vals : List String) : String :=
  _CategorySeriesXmlWriter.cat_num_pt_loop 0 vals

/-- The per-point loop of `_CategorySeriesXmlWriter._cat_pt_xml` (flat
string category labels, XML-escaped). -/
def _CategorySeriesXmlWriter.cat_pt_loop (idx : Nat) : List String → String
  | [] => ""
  | lbl :: rest =>
      let cat_label := escape lbl
      s!"                <c:pt idx=\"{idx}\">\n"
      ++ s!"                  <c:v>{cat_label}</c:v>\n"
      ++ "                </c:pt>\n"
      ++ _CategorySeriesXmlWriter.cat_pt_loop (idx + 1) rest

/-- `_CategorySeriesXmlWriter._cat_pt_xml`. -/
def _CategorySeriesXmlWriter.cat_pt_xml (labels : List String) : String :=
  _CategorySeriesXmlWriter.cat_pt_loop 0 labels

/-- The inner point loop of `_CategorySeriesXmlWriter._lvl_xml`. -/
def _CategorySeriesXmlWriter.lvl_pt_xml : List (Nat × String) → String
  | [] => ""
  | (idx, nm) :: rest =>
      let nmEsc := escape nm
      s!"                  <c:pt idx=\"{idx}\">\n"
      ++ s!"                    <c:v>{nmEsc}</c:v>\n"
      ++ "                  </c:pt>\n"
      ++ _CategorySeriesXmlWriter.lvl_pt_xml rest

/-- `_CategorySeriesXmlWriter._lvl_xml`: one `c:lvl` element per level. -/
def _CategorySeriesXmlWriter.lvl_xml (levels : List (List (Nat × String))) :
    String :=
  levels.foldl
    (fun acc level =>
      acc ++ "                <c:lvl>\n"
      ++ _CategorySeriesXmlWriter.lvl_pt_xml level
      ++ "                </c:lvl>\n") ""

/-- `_CategorySeriesXmlWriter._cat_tmpl` filled in (flat string labels). -/
def _CategorySeriesXmlWriter.cat_tmpl (nsd wksht_ref : String)
    (cat_count : Nat) (cat_pt_xml : String) : String :=
  "          <c:cat" ++ nsd ++ ">\n"
  ++ "            <c:strRef>\n"
  ++ s!"              <c:f>{wksht_ref}</c:f>\n"
  ++ "              <c:strCache>\n"
  ++ s!"                <c:ptCount val=\"{cat_count}\"/>\n"
  ++ cat_pt_xml
  ++ "              </c:strCache>\n"
  ++ "            </c:strRef>\n"
  ++ "          </c:cat>\n"

/-- `_CategorySeriesXmlWriter._numRef_cat_tmpl` filled in (numeric or date
labels). -/
def _CategorySeriesXmlWriter.numRef_cat_tmpl (nsd wksht_ref number_format : String)
    (cat_count : Nat) (cat_pt_xml : String) : String :=
  "          <c:cat" ++ nsd ++ ">\n"
  ++ "            <c:numRef>\n"
  ++ s!"              <c:f>{wksht_ref}</c:f>\n"
  ++ "              <c:numCache>\n"
  ++ s!"                <c:formatCode>{number_format}</c:formatCode>\n"
  ++ s!"                <c:ptCount val=\"{cat_count}\"/>\n"
  ++ cat_pt_xml
  ++ "              </c:numCache>\n"
  ++ "            </c:numRef>\n"
  ++ "          </c:cat>\n"

/-- `_CategorySeriesXmlWriter._multiLvl_cat_tmpl` filled in. -/
def _CategorySeriesXmlWriter.multiLvl_cat_tmpl (nsd wksht_ref : String)
    (cat_count : Nat) (lvl_xml : String) : String :=
  "          <c:cat" ++ nsd ++ ">\n"
  ++ "            <c:multiLvlStrRef>\n"
  ++ s!"              <c:f>{wksht_ref}</c:f>\n"
  ++ "              <c:multiLvlStrCache>\n"
  ++ s!"                <c:ptCount val=\"{cat_count}\"/>\n"
  ++ lvl_xml
  ++ "              </c:multiLvlStrCache>\n"
  ++ "            </c:multiLvlStrRef>\n"
  ++ "          </c:cat>\n"

/-- `_CategorySeriesXmlWriter.cat_xml` / `.cat`: dispatch on the category
kind exactly as the source does (numeric test first, then depth). -/
def _CategorySeriesXmlWriter.cat_fragment (nsd : String)
    (sd : CategorySeriesData) : String :=
  let categories := sd.categories
  if categories.are_numeric then
    _CategorySeriesXmlWriter.numRef_cat_tmpl nsd sd.categories_ref
      categories.number_format categories.leaf_count
      (_CategorySeriesXmlWriter.cat_num_pt_xml categories.numericVals)
  else if categories.depth = 1 then
    _CategorySeriesXmlWriter.cat_tmpl nsd sd.categories_ref
      categories.leaf_count
      (_CategorySeriesXmlWriter.cat_pt_xml categories.leafLabels)
  else
    _CategorySeriesXmlWriter.multiLvl_cat_tmpl nsd sd.categories_ref
      categories.leaf_count
      (_CategorySeriesXmlWriter.lvl_xml categories.levels)

/-- `_CategorySeriesXmlWriter.cat_xml` (no namespace declaration). -/
def _CategorySeriesXmlWriter.cat_xml (sd : CategorySeriesData) : String :=
  _CategorySeriesXmlWriter.cat_fragment "" sd

/-- `_CategorySeriesXmlWriter.cat` (namespace-qualified oxml variant). -/
def _CategorySeriesXmlWriter.cat_oxml (sd : CategorySeriesData) : String :=
  _CategorySeriesXmlWriter.cat_fragment (" " ++ nsdecls_c) sd

/-- The per-point loop of `_CategorySeriesXmlWriter._val_pt_xml`
(series values, skipping `None` entries). -/
def _CategorySeriesXmlWriter.val_pt_loop (idx : Nat) :
    List (Option String) → String
  | [] => ""
  | none :: rest => _CategorySeriesXmlWriter.val_pt_loop (idx + 1) rest
  | some v :: rest =>
      s!"                <c:pt idx=\"{idx}\">\n"
      ++ s!"                  <c:v>{v}</c:v>\n"
      ++ "                </c:pt>\n"
      ++ _CategorySeriesXmlWriter.val_pt_loop (idx + 1) rest

/-- `_CategorySeriesXmlWriter._val_pt_xml`. -/
def _CategorySeriesXmlWriter.val_pt_xml (values : List (Option String)) :
    String :=
  _CategorySeriesXmlWriter.val_pt_loop 0 values

/-- `_CategorySeriesXmlWriter._val_tmpl` filled in. -/
def _CategorySeriesXmlWriter.val_tmpl (nsd values_ref number_format : String)
    (val_count : Nat) (val_pt_xml : String) : String :=
  "          <c:val" ++ nsd ++ ">\n"
  ++ "            <c:numRef>\n"
  ++ s!"              <c:f>{values_ref}</c:f>\n"
  ++ "              <c:numCache>\n"
  ++ s!"                <c:formatCode>{number_format}</c:formatCode>\n"
  ++ s!"                <c:ptCount val=\"{val_count}\"/>\n"
  ++ val_pt_xml
  ++ "              </c:numCache>\n"
  ++ "            </c:numRef>\n"
  ++ "          </c:val>\n"

/-- `_CategorySeriesXmlWriter.val_xml` (no namespace declaration). -/
def _CategorySeriesXmlWriter.val_xml (sd : CategorySeriesData) : String :=
  _CategorySeriesXmlWriter.val_tmpl "" sd.values_ref sd.number_format
    sd.values.length (_CategorySeriesXmlWriter.val_pt_xml sd.values)

/-- `_CategorySeriesXmlWriter.val` (namespace-qualified oxml variant). -/
def _CategorySeriesXmlWriter.val_oxml (sd : CategorySeriesData) : String :=
  _CategorySeriesXmlWriter.val_tmpl (" " ++ nsdecls_c) sd.values_ref
    sd.number_format sd.values.length
    (_CategorySeriesXmlWriter.val_pt_xml sd.values)

/-- `_XySeriesXmlWriter._xVal_tmpl` filled in. -/
def _XySeriesXmlWriter.xVal_tmpl (nsd numRef_xml : String) : String :=
  "          <c:xVal" ++ nsd ++ ">\n" ++ numRef_xml ++ "          </c:xVal>\n"

/-- `_XySeriesXmlWriter._yVal_tmpl` filled in. -/
def _XySeriesXmlWriter.yVal_tmpl (nsd numRef_xml : String) : String :=
  "          <c:yVal" ++ nsd ++ ">\n" ++ numRef_xml ++ "          </c:yVal>\n"

/-- `_XySeriesXmlWriter.xVal_xml`. -/
def _XySeriesXmlWriter.xVal_xml (sd : XySeriesData) : String :=
  _XySeriesXmlWriter.xVal_tmpl ""
    (_BaseSeriesXmlWriter.numRef_xml sd.x_values_ref sd.number_format sd.x_values)

/-- `_XySeriesXmlWriter.xVal` (namespace-qualified oxml variant). -/
def _XySeriesXmlWriter.xVal_oxml (sd : XySeriesData) : String :=
  _XySeriesXmlWriter.xVal_tmpl (" " ++ nsdecls_c)
    (_BaseSeriesXmlWriter.numRef_xml sd.x_values_ref sd.number_format sd.x_values)

/-- `_XySeriesXmlWriter.yVal_xml`. -/
def _XySeriesXmlWriter.yVal_xml (sd : XySeriesData) : String :=
  _XySeriesXmlWriter.yVal_tmpl ""
    (_BaseSeriesXmlWriter.numRef_xml sd.y_values_ref sd.number_format sd.y_values)

/-- `_XySeriesXmlWriter.yVal` (namespace-qualified oxml variant). -/
def _XySeriesXmlWriter.yVal_oxml (sd : XySeriesData) : String :=
  _XySeriesXmlWriter.yVal_tmpl (" " ++ nsdecls_c)
    (_BaseSeriesXmlWriter.numRef_xml sd.y_values_ref sd.number_format sd.y_values)

/-- `_BubbleSeriesXmlWriter._bubbleSize_tmpl` filled in. -/
def _BubbleSeriesXmlWriter.bubbleSize_tmpl (nsd numRef_xml : String) : String :=
  "          <c:bubbleSize" ++ nsd ++ ">\n" ++ numRef_xml
  ++ "          </c:bubbleSize>\n"

/-- `_BubbleSeriesXmlWriter.bubbleSize_xml`. -/
def _BubbleSeriesXmlWriter.bubbleSize_xml (sd : BubbleSeriesData) : String :=
  _BubbleSeriesXmlWriter.bubbleSize_tmpl ""
    (_BaseSeriesXmlWriter.numRef_xml sd.bubble_sizes_ref sd.number_format
      sd.bubble_sizes)

/-- `_BubbleSeriesXmlWriter.bubbleSize` (namespace-qualified oxml
variant). -/
def _BubbleSeriesXmlWriter.bubbleSize_oxml (sd : BubbleSeriesData) : String :=
  _BubbleSeriesXmlWriter.bubbleSize_tmpl (" " ++ nsdecls_c)
    (_BaseSeriesXmlWriter.numRef_xml sd.bubble_sizes_ref sd.number_format
      sd.bubble_sizes)

/-- A `Plot` (from `pptx/chart/chart.py`): a chart-type-homogeneous group
of series with an optional secondary-axis flag; axis ids are attached by
`Chart.add_plot`.  Only the category-shaped plot writers read
`series_seq`, so it carries category series. -/
structure Plot where
  chart_type : XL_CHART_TYPE
  series_seq : List CategorySeriesData
  secondary_axis : Bool := false
  x_axis_id : Option Nat := none
  y_axis_id : Option Nat := none
deriving DecidableEq

/-- The `Plot.has_axes` dictionary in `pptx/chart/chart.py`; a value
absent from the dictionary raises `KeyError`, modelled as `none`. -/
def Plot.has_axes_table : XL_CHART_TYPE → Option Bool
  | .AREA => some true
  | .AREA_STACKED => some true
  | .AREA_STACKED_100 => some true
  | .BAR_CLUSTERED => some true
  | .BAR_STACKED => some true
  | .BAR_STACKED_100 => some true
  | .BUBBLE => some true
  | .BUBBLE_THREE_D_EFFECT => some true
  | .COLUMN_CLUSTERED => some true
  | .COLUMN_STACKED => some true
  | .COLUMN_STACKED_100 => some true
  | .DOUGHNUT => some false
  | .DOUGHNUT_EXPLODED => some false
  | .LINE => some true
  | .LINE_MARKERS => some true
  | .LINE_MARKERS_STACKED => some true
  | .LINE_MARKERS_STACKED_100 => some true
  | .LINE_STACKED => some true
  | .LINE_STACKED_100 => some true
  | .PIE => some false
  | .PIE_EXPLODED => some false
  | .RADAR => some false
  | .RADAR_FILLED => some false
  | .RADAR_MARKERS => some false
  | .XY_SCATTER => some true
  | .XY_SCATTER_LINES => some true
  | .XY_SCATTER_LINES_NO_MARKERS => some true
  | .XY_SCATTER_SMOOTH => some true
  | .XY_SCATTER_SMOOTH_NO_MARKERS => some true
  | .STOCK_HLC => none
  | .SURFACE => none

/-- A `Chart` (builder object from `pptx/chart/chart.py`). -/
structure Chart where
  data : ChartData
  plots : List Plot := []
  x_axis_id : Nat
  y_axis_id : Nat
  secondary_x_axis_id : Option Nat := none
  secondary_y_axis_id : Option Nat := none
  has_axes : Bool := true
deriving DecidableEq

/-- `random.getrandbits(24)` modelled as consuming one value from an
arbitrary stream of naturals, reduced mod `2^24`; quantifying over the
stream quantifies over every possible allocation outcome. -/
def getrandbits24 (rng : List Nat) : Nat × List Nat :=
  (rng.headD 0 % 16777216, rng.tail)

/-- `Chart.__init__`: draw the primary x and y axis ids; the secondary
pair starts unallocated and `_has_axes` starts `True`. -/
def Chart.init (data : ChartData) (rng : List Nat) : Chart × List Nat :=
  let p1 := getrandbits24 rng
  let p2 := getrandbits24 p1.2
  ({ data := data, plots := [], x_axis_id := p1.1, y_axis_id := p2.1,
     secondary_x_axis_id := none, secondary_y_axis_id := none,
     has_axes := true }, p2.2)

/-- `Chart.add_plot`: reject mixing plots with and without axes; allocate
the secondary axis-id pair lazily on the first secondary-axis plot;
attach the axis ids to the plot; clear `_has_axes` for a plot without
axes. -/
def Chart.add_plot (c : Chart) (p : Plot) (rng : List Nat) :
    Except String (Chart × List Nat) := do
  let pha ← match Plot.has_axes_table p.chart_type with
    | some b => Except.ok b
    | none => Except.error "KeyError"
  if c.plots.length > 0 ∧ c.has_axes ≠ pha then
    Except.error "can't mix a plot with and without axes"
  else if pha then
    let st :=
      if p.secondary_axis ∧ c.secondary_x_axis_id = none then
        let d1 := getrandbits24 rng
        let d2 := getrandbits24 d1.2
        ({ c with secondary_x_axis_id := some d1.1,
                  secondary_y_axis_id := some d2.1 }, d2.2)
      else (c, rng)
    let c' := st.1
    let p' := { p with
      y_axis_id := if p.secondary_axis then c'.secondary_y_axis_id
                   else some c'.y_axis_id,
      x_axis_id := if p.secondary_axis then c'.secondary_x_axis_id
                   else some c'.x_axis_id }
    Except.ok ({ c' with plots := c'.plots ++ [p'] }, st.2)
  else
    Except.ok ({ c with has_axes := false, plots := c.plots ++ [p] }, rng)

/-- `_BaseChartXmlWriter._axis_ids`: the two `c:axId` references of a
plot-group element (a missing id renders as Python renders `None`). -/
def _BaseChartXmlWriter._axis_ids (plot : Plot) : String :=
  let x_axis_id := pyStr plot.x_axis_id
  let y_axis_id := pyStr plot.y_axis_id
  s!"        <c:axId val=\"{x_axis_id}\"/>\n"
  ++ s!"        <c:axId val=\"{y_axis_id}\"/>\n"

/-- The six-line `c:dLbls` block shared by the area, bar, line and bubble
plot-group templates. -/
def dLbls_block : String :=
  "        <c:dLbls>\n"
  ++ "          <c:showLegendKey val=\"0\"/>\n"
  ++ "          <c:showVal val=\"0\"/>\n"
  ++ "          <c:showCatName val=\"0\"/>\n"
  ++ "          <c:showSerName val=\"0\"/>\n"
  ++ "          <c:showPercent val=\"0\"/>\n"
  ++ "          <c:showBubbleSize val=\"0\"/>\n"
  ++ "        </c:dLbls>\n"

/-- `_AreaChartXmlWriter._grouping_xml` (dictionary lookup; `KeyError`
for any other chart type). -/
def _AreaChartXmlWriter._grouping_xml (ct : XL_CHART_TYPE) :
    Except String String :=
  match ct with
  | .AREA => Except.ok "        <c:grouping val=\"standard\"/>\n"
  | .AREA_STACKED => Except.ok "        <c:grouping val=\"stacked\"/>\n"
  | .AREA_STACKED_100 =>
      Except.ok "        <c:grouping val=\"percentStacked\"/>\n"
  | _ => Except.error "KeyError"

/-- One `c:ser` element of `_AreaChartXmlWriter._ser_xml`. -/
def _AreaChartXmlWriter.serFragment (series : CategorySeriesData) : String :=
  let ser_idx := series.index
  let ser_order := series.index
  "        <c:ser>\n"
  ++ s!"          <c:idx val=\"{ser_idx}\"/>\n"
  ++ s!"          <c:order val=\"{ser_order}\"/>\n"
  ++ series.tx_xml
  ++ _CategorySeriesXmlWriter.cat_xml series
  ++ _CategorySeriesXmlWriter.val_xml series
  ++ "        </c:ser>\n"

/-- `_AreaChartXmlWriter._ser_xml` iterates `self._chart_data` (the whole
chart data), not the plot's own series; non-category series lack the
`categories` attribute. -/
def _AreaChartXmlWriter._ser_fragments (cd : ChartData) :
    Except String (List String) :=
  match cd with
  | .category _ sers => Except.ok (sers.map _AreaChartXmlWriter.serFragment)
  | _ => Except.error "AttributeError: categories"

def _AreaChartXmlWriter._ser_xml (cd : ChartData) : Except String String := do
  let frags ← _AreaChartXmlWriter._ser_fragments cd
  Except.ok (String.join frags)

def _AreaChartXmlWriter.xml (ct : XL_CHART_TYPE) (cd : ChartData)
    (plot : Plot) : Except String String := do
  let grouping_xml ← _AreaChartXmlWriter._grouping_xml ct
  let ser_xml ← _AreaChartXmlWriter._ser_xml cd
  Except.ok ("      <c:areaChart>\n"
    ++ grouping_xml
    ++ "        <c:varyColors val=\"0\"/>\n"
    ++ ser_xml
    ++ dLbls_block
    ++ _BaseChartXmlWriter._axis_ids plot
    ++ "      </c:areaChart>\n")

/-- `_BarChartXmlWriter._barDir_xml`. -/
def _BarChartXmlWriter._barDir_xml (ct : XL_CHART_TYPE) :
    Except String String :=
  match ct with
  | .BAR_CLUSTERED => Except.ok "        <c:barDir val=\"bar\"/>\n"
  | .BAR_STACKED => Except.ok "        <c:barDir val=\"bar\"/>\n"
  | .BAR_STACKED_100 => Except.ok "        <c:barDir val=\"bar\"/>\n"
  | .COLUMN_CLUSTERED => Except.ok "        <c:barDir val=\"col\"/>\n"
  | .COLUMN_STACKED => Except.ok "        <c:barDir val=\"col\"/>\n"
  | .COLUMN_STACKED_100 => Except.ok "        <c:barDir val=\"col\"/>\n"
  | _ => Except.error "NotImplementedError: no _barDir_xml() for chart type"

/-- `_BarChartXmlWriter._grouping_xml`. -/
def _BarChartXmlWriter._grouping_xml (ct : XL_CHART_TYPE) :
    Except String String :=
  match ct with
  | .BAR_CLUSTERED => Except.ok "        <c:grouping val=\"clustered\"/>\n"
  | .COLUMN_CLUSTERED => Except.ok "        <c:grouping val=\"clustered\"/>\n"
  | .BAR_STACKED => Except.ok "        <c:grouping val=\"stacked\"/>\n"
  | .COLUMN_STACKED => Except.ok "        <c:grouping val=\"stacked\"/>\n"
  | .BAR_STACKED_100 =>
      Except.ok "        <c:grouping val=\"percentStacked\"/>\n"
  | .COLUMN_STACKED_100 =>
      Except.ok "        <c:grouping val=\"percentStacked\"/>\n"
  | _ => Except.error "NotImplementedError: no _grouping_xml() for chart type"

/-- `_BarChartXmlWriter._overlap_xml`. -/
def _BarChartXmlWriter._overlap_xml (ct : XL_CHART_TYPE) : String :=
  match ct with
  | .BAR_STACKED => "        <c:overlap val=\"100\"/>\n"
  | .BAR_STACKED_100 => "        <c:overlap val=\"100\"/>\n"
  | .COLUMN_STACKED => "        <c:overlap val=\"100\"/>\n"
  | .COLUMN_STACKED_100 => "        <c:overlap val=\"100\"/>\n"
  | _ => ""

/-- One `c:ser` element of `_BarChartXmlWriter._ser_xml`. -/
def _BarChartXmlWriter.serFragment (series : CategorySeriesData) : String :=
  let ser_idx := series.index
  let ser_order := series.index
  "        <c:ser>\n"
  ++ s!"          <c:idx val=\"{ser_idx}\"/>\n"
  ++ s!"          <c:order val=\"{ser_order}\"/>\n"
  ++ series.tx_xml
  ++ _CategorySeriesXmlWriter.cat_xml series
  ++ _CategorySeriesXmlWriter.val_xml series
  ++ "        </c:ser>\n"

/-- `_BarChartXmlWriter._ser_xml` iterates `self._plot.series_seq` (the
plot's own series). -/
def _BarChartXmlWriter._ser_fragments (plot : Plot) : List String :=
  plot.series_seq.map _BarChartXmlWriter.serFragment

def _BarChartXmlWriter._ser_xml (plot : Plot) : String :=
  String.join (_BarChartXmlWriter._ser_fragments plot)

def _BarChartXmlWriter.xml (ct : XL_CHART_TYPE) (cd : ChartData)
    (plot : Plot) : Except String String := do
  let barDir_xml ← _BarChartXmlWriter._barDir_xml ct
  let grouping_xml ← _BarChartXmlWriter._grouping_xml ct
  Except.ok ("      <c:barChart>\n"
    ++ barDir_xml
    ++ grouping_xml
    ++ _BarChartXmlWriter._ser_xml plot
    ++ dLbls_block
    ++ _BarChartXmlWriter._overlap_xml ct
    ++ _BaseChartXmlWriter._axis_ids plot
    ++ "      </c:barChart>\n")

/-- `_DoughnutChartXmlWriter._explosion_xml`. -/
def _DoughnutChartXmlWriter._explosion_xml (ct : XL_CHART_TYPE) : String :=
  match ct with
  | .DOUGHNUT_EXPLODED => "          <c:explosion val=\"25\"/>\n"
  | _ => ""

/-- One `c:ser` element of `_DoughnutChartXmlWriter._ser_xml`. -/
def _DoughnutChartXmlWriter.serFragment (ct : XL_CHART_TYPE)
    (series : CategorySeriesData) : String :=
  let ser_idx := series.index
  let ser_order := series.index
  "        <c:ser>\n"
  ++ s!"          <c:idx val=\"{ser_idx}\"/>\n"
  ++ s!"          <c:order val=\"{ser_order}\"/>\n"
  ++ series.tx_xml
  ++ _DoughnutChartXmlWriter._explosion_xml ct
  ++ _CategorySeriesXmlWriter.cat_xml series
  ++ _CategorySeriesXmlWriter.val_xml series
  ++ "        </c:ser>\n"

/-- `_DoughnutChartXmlWriter._ser_xml` iterates `self._chart_data`. -/
def _DoughnutChartXmlWriter._ser_fragments (ct : XL_CHART_TYPE)
    (cd : ChartData) : Except String (List String) :=
  match cd with
  | .category _ sers =>
      Except.ok (sers.map (_DoughnutChartXmlWriter.serFragment ct))
  | _ => Except.error "AttributeError: categories"

def _DoughnutChartXmlWriter._ser_xml (ct : XL_CHART_TYPE) (cd : ChartData) :
    Except String String := do
  let frags ← _DoughnutChartXmlWriter._ser_fragments ct cd
  Except.ok (String.join frags)

def _DoughnutChartXmlWriter.xml (ct : XL_CHART_TYPE) (cd : ChartData)
    (plot : Plot) : Except String String := do
  let ser_xml ← _DoughnutChartXmlWriter._ser_xml ct cd
  Except.ok ("      <c:doughnutChart>\n"
    ++ "        <c:varyColors val=\"1\"/>\n"
    ++ ser_xml
    ++ "        <c:dLbls>\n"
    ++ "          <c:showLegendKey val=\"0\"/>\n"
    ++ "          <c:showVal val=\"0\"/>\n"
    ++ "          <c:showCatName val=\"0\"/>\n"
    ++ "          <c:showSerName val=\"0\"/>\n"
    ++ "          <c:showPercent val=\"0\"/>\n"
    ++ "          <c:showBubbleSize val=\"0\"/>\n"
    ++ "          <c:showLeaderLines val=\"1\"/>\n"
    ++ "        </c:dLbls>\n"
    ++ "        <c:firstSliceAng val=\"0\"/>\n"
    ++ "        <c:holeSize val=\"50\"/>\n"
    ++ "      </c:doughnutChart>\n")

/-- `_LineChartXmlWriter._grouping_xml`. -/
def _LineChartXmlWriter._grouping_xml (ct : XL_CHART_TYPE) :
    Except String String :=
  match ct with
  | .LINE => Except.ok "        <c:grouping val=\"standard\"/>\n"
  | .LINE_MARKERS => Except.ok "        <c:grouping val=\"standard\"/>\n"
  | .LINE_STACKED => Except.ok "        <c:grouping val=\"stacked\"/>\n"
  | .LINE_MARKERS_STACKED =>
      Except.ok "        <c:grouping val=\"stacked\"/>\n"
  | .LINE_STACKED_100 =>
      Except.ok "        <c:grouping val=\"percentStacked\"/>\n"
  | .LINE_MARKERS_STACKED_100 =>
      Except.ok "        <c:grouping val=\"percentStacked\"/>\n"
  | _ => Except.error "NotImplementedError: no _grouping_xml() for chart type"

/-- `_LineChartXmlWriter._marker_xml`. -/
def _LineChartXmlWriter._marker_xml (ct : XL_CHART_TYPE) : String :=
  match ct with
  | .LINE =>
      "          <c:marker>\n"
      ++ "            <c:symbol val=\"none\"/>\n"
      ++ "          </c:marker>\n"
  | .LINE_STACKED =>
      "          <c:marker>\n"
      ++ "            <c:symbol val=\"none\"/>\n"
      ++ "          </c:marker>\n"
  | .LINE_STACKED_100 =>
      "          <c:marker>\n"
      ++ "            <c:symbol val=\"none\"/>\n"
      ++ "          </c:marker>\n"
  | _ => ""

/-- One `c:ser` element of `_LineChartXmlWriter._ser_xml`. -/
def _LineChartXmlWriter.serFragment (ct : XL_CHART_TYPE)
    (series : CategorySeriesData) : String :=
  let ser_idx := series.index
  let ser_order := series.index
  "        <c:ser>\n"
  ++ s!"          <c:idx val=\"{ser_idx}\"/>\n"
  ++ s!"          <c:order val=\"{ser_order}\"/>\n"
  ++ series.tx_xml
  ++ _LineChartXmlWriter._marker_xml ct
  ++ _CategorySeriesXmlWriter.cat_xml series
  ++ _CategorySeriesXmlWriter.val_xml series
  ++ "          <c:smooth val=\"0\"/>\n"
  ++ "        </c:ser>\n"

/-- `_LineChartXmlWriter._ser_xml` iterates `self._plot.series_seq`. -/
def _LineChartXmlWriter._ser_fragments (ct : XL_CHART_TYPE) (plot : Plot) :
    List String :=
  plot.series_seq.map (_LineChartXmlWriter.serFragment ct)

def _LineChartXmlWriter._ser_xml (ct : XL_CHART_TYPE) (plot : Plot) : String :=
  String.join (_LineChartXmlWriter._ser_fragments ct plot)

def _LineChartXmlWriter.xml (ct : XL_CHART_TYPE) (cd : ChartData)
    (plot : Plot) : Except String String := do
  let grouping_xml ← _LineChartXmlWriter._grouping_xml ct
  Except.ok ("      <c:lineChart>\n"
    ++ grouping_xml
    ++ "        <c:varyColors val=\"0\"/>\n"
    ++ _LineChartXmlWriter._ser_xml ct plot
    ++ dLbls_block
    ++ "        <c:marker val=\"1\"/>\n"
    ++ "        <c:smooth val=\"0\"/>\n"
    ++ _BaseChartXmlWriter._axis_ids plot
    ++ "      </c:lineChart>\n")

/-- `_PieChartXmlWriter._explosion_xml`. -/
def _PieChartXmlWriter._explosion_xml (ct : XL_CHART_TYPE) : String :=
  match ct with
  | .PIE_EXPLODED => "          <c:explosion val=\"25\"/>\n"
  | _ => ""

/-- The single `c:ser` element of `_PieChartXmlWriter._ser_xml`, built
from one series. -/
def _PieChartXmlWriter.serFragment (ct : XL_CHART_TYPE)
    (series : CategorySeriesData) : String :=
  "        <c:ser>\n"
  ++ "          <c:idx val=\"0\"/>\n"
  ++ "          <c:order val=\"0\"/>\n"
  ++ series.tx_xml
  ++ _PieChartXmlWriter._explosion_xml ct
  ++ _CategorySeriesXmlWriter.cat_xml series
  ++ _CategorySeriesXmlWriter.val_xml series
  ++ "        </c:ser>\n"

/-- `_PieChartXmlWriter._ser_xml` uses only `self._chart_data.series[0]`:
exactly one series element, from the first chart-data series. -/
def _PieChartXmlWriter._ser_fragments (ct : XL_CHART_TYPE) (cd : ChartData) :
    Except String (List String) :=
  match cd with
  | .category _ [] => Except.error "IndexError: list index out of range"
  | .category _ (s0 :: _) =>
      Except.ok [_PieChartXmlWriter.serFragment ct s0]
  | _ => Except.error "AttributeError: categories"

def _PieChartXmlWriter._ser_xml (ct : XL_CHART_TYPE) (cd : ChartData) :
    Except String String := do
  let frags ← _PieChartXmlWriter._ser_fragments ct cd
  Except.ok (String.join frags)

def _PieChartXmlWriter.xml (ct : XL_CHART_TYPE) (cd : ChartData)
    (plot : Plot) : Except String String := do
  let ser_xml ← _PieChartXmlWriter._ser_xml ct cd
  Except.ok ("      <c:pieChart>\n"
    ++ "        <c:varyColors val=\"1\"/>\n"
    ++ ser_xml
    ++ "      </c:pieChart>\n")

/-- `_RadarChartXmlWriter._marker_xml`. -/
def _RadarChartXmlWriter._marker_xml (ct : XL_CHART_TYPE) : String :=
  match ct with
  | .RADAR =>
      "          <c:marker>\n"
      ++ "            <c:symbol val=\"none\"/>\n"
      ++ "          </c:marker>\n"
  | _ => ""

/-- `_RadarChartXmlWriter._radar_style`. -/
def _RadarChartXmlWriter._radar_style (ct : XL_CHART_TYPE) : String :=
  match ct with
  | .RADAR_FILLED => "filled"
  | _ => "marker"

/-- One `c:ser` element of `_RadarChartXmlWriter._ser_xml`. -/
def _RadarChartXmlWriter.serFragment (ct : XL_CHART_TYPE)
    (series : CategorySeriesData) : String :=
  let ser_idx := series.index
  let ser_order := series.index
  "        <c:ser>\n"
  ++ s!"          <c:idx val=\"{ser_idx}\"/>\n"
  ++ s!"          <c:order val=\"{ser_order}\"/>\n"
  ++ series.tx_xml
  ++ _RadarChartXmlWriter._marker_xml ct
  ++ _CategorySeriesXmlWriter.cat_xml series
  ++ _CategorySeriesXmlWriter.val_xml series
  ++ "          <c:smooth val=\"0\"/>\n"
  ++ "        </c:ser>\n"

/-- `_RadarChartXmlWriter._ser_xml` iterates `self._chart_data`. -/
def _RadarChartXmlWriter._ser_fragments (ct : XL_CHART_TYPE) (cd : ChartData) :
    Except String (List String) :=
  match cd with
  | .category _ sers =>
      Except.ok (sers.map (_RadarChartXmlWriter.serFragment ct))
  | _ => Except.error "AttributeError: categories"

def _RadarChartXmlWriter._ser_xml (ct : XL_CHART_TYPE) (cd : ChartData) :
    Except String String := do
  let frags ← _RadarChartXmlWriter._ser_fragments ct cd
  Except.ok (String.join frags)

def _RadarChartXmlWriter.xml (ct : XL_CHART_TYPE) (cd : ChartData)
    (plot : Plot) : Except String String := do
  let radar_style := _RadarChartXmlWriter._radar_style ct
  let ser_xml ← _RadarChartXmlWriter._ser_xml ct cd
  Except.ok ("      <c:radarChart>\n"
    ++ s!"        <c:radarStyle val=\"{radar_style}\"/>\n"
    ++ "        <c:varyColors val=\"0\"/>\n"
    ++ ser_xml
    ++ _BaseChartXmlWriter._axis_ids plot
    ++ "      </c:radarChart>\n")

/-- `_XyChartXmlWriter._marker_xml`. -/
def _XyChartXmlWriter._marker_xml (ct : XL_CHART_TYPE) : String :=
  match ct with
  | .XY_SCATTER_LINES_NO_MARKERS =>
      "          <c:marker>\n"
      ++ "            <c:symbol val=\"none\"/>\n"
      ++ "          </c:marker>\n"
  | .XY_SCATTER_SMOOTH_NO_MARKERS =>
      "          <c:marker>\n"
      ++ "            <c:symbol val=\"none\"/>\n"
      ++ "          </c:marker>\n"
  | _ => ""

/-- `_XyChartXmlWriter._scatterStyle_val`. -/
def _XyChartXmlWriter._scatterStyle_val (ct : XL_CHART_TYPE) : String :=
  match ct with
  | .XY_SCATTER_SMOOTH => "smoothMarker"
  | .XY_SCATTER_SMOOTH_NO_MARKERS => "smoothMarker"
  | _ => "lineMarker"

/-- `_XyChartXmlWriter._spPr_xml`. -/
def _XyChartXmlWriter._spPr_xml (ct : XL_CHART_TYPE) : String :=
  match ct with
  | .XY_SCATTER =>
      "          <c:spPr>\n"
      ++ "            <a:ln w=\"47625\">\n"
      ++ "              <a:noFill/>\n"
      ++ "            </a:ln>\n"
      ++ "          </c:spPr>\n"
  | _ => ""

/-- One `c:ser` element of `_XyChartXmlWriter._ser_xml`. -/
def _XyChartXmlWriter.serFragment (ct : XL_CHART_TYPE)
    (series : XySeriesData) : String :=
  let ser_idx := series.index
  let ser_order := series.index
  "        <c:ser>\n"
  ++ s!"          <c:idx val=\"{ser_idx}\"/>\n"
  ++ s!"          <c:order val=\"{ser_order}\"/>\n"
  ++ series.tx_xml
  ++ _XyChartXmlWriter._spPr_xml ct
  ++ _XyChartXmlWriter._marker_xml ct
  ++ _XySeriesXmlWriter.xVal_xml series
  ++ _XySeriesXmlWriter.yVal_xml series
  ++ "          <c:smooth val=\"0\"/>\n"
  ++ "        </c:ser>\n"

/-- `_XyChartXmlWriter._ser_xml` iterates `self._chart_data`; bubble
series also expose the XY channels, category series do not. -/
def _XyChartXmlWriter._ser_fragments (ct : XL_CHART_TYPE) (cd : ChartData) :
    Except String (List String) :=
  match cd with
  | .xy sers => Except.ok (sers.map (_XyChartXmlWriter.serFragment ct))
  | .bubble sers =>
      Except.ok (sers.map (fun s => _XyChartXmlWriter.serFragment ct s.toXySeriesData))
  | .category _ _ => Except.error "AttributeError: x_values"

def _XyChartXmlWriter._ser_xml (ct : XL_CHART_TYPE) (cd : ChartData) :
    Except String String := do
  let frags ← _XyChartXmlWriter._ser_fragments ct cd
  Except.ok (String.join frags)

def _XyChartXmlWriter.xml (ct : XL_CHART_TYPE) (cd : ChartData)
    (plot : Plot) : Except String String := do
  let scatterStyle := _XyChartXmlWriter._scatterStyle_val ct
  let ser_xml ← _XyChartXmlWriter._ser_xml ct cd
  Except.ok ("      <c:scatterChart>\n"
    ++ s!"        <c:scatterStyle val=\"{scatterStyle}\"/>\n"
    ++ "        <c:varyColors val=\"0\"/>\n"
    ++ ser_xml
    ++ _BaseChartXmlWriter._axis_ids plot
    ++ "      </c:scatterChart>\n")

/-- `_BubbleChartXmlWriter._bubble3D_val`. -/
def _BubbleChartXmlWriter._bubble3D_val (ct : XL_CHART_TYPE) : String :=
  match ct with
  | .BUBBLE_THREE_D_EFFECT => "1"
  | _ => "0"

/-- One `c:ser` element of `_BubbleChartXmlWriter._ser_xml`. -/
def _BubbleChartXmlWriter.serFragment (ct : XL_CHART_TYPE)
    (series : BubbleSeriesData) : String :=
  let ser_idx := series.index
  let ser_order := series.index
  let bubble3D_val := _BubbleChartXmlWriter._bubble3D_val ct
  "        <c:ser>\n"
  ++ s!"          <c:idx val=\"{ser_idx}\"/>\n"
  ++ s!"          <c:order val=\"{ser_order}\"/>\n"
  ++ series.tx_xml
  ++ "          <c:invertIfNegative val=\"0\"/>\n"
  ++ _XySeriesXmlWriter.xVal_xml series.toXySeriesData
  ++ _XySeriesXmlWriter.yVal_xml series.toXySeriesData
  ++ _BubbleSeriesXmlWriter.bubbleSize_xml series
  ++ s!"          <c:bubble3D val=\"{bubble3D_val}\"/>\n"
  ++ "        </c:ser>\n"

/-- `_BubbleChartXmlWriter._ser_xml` iterates `self._chart_data`; only
bubble series expose the bubble-size channel. -/
def _BubbleChartXmlWriter._ser_fragments (ct : XL_CHART_TYPE)
    (cd : ChartData) : Except String (List String) :=
  match cd with
  | .bubble sers => Except.ok (sers.map (_BubbleChartXmlWriter.serFragment ct))
  | .xy _ => Except.error "AttributeError: bubble_sizes"
  | .category _ _ => Except.error "AttributeError: x_values"

def _BubbleChartXmlWriter._ser_xml (ct : XL_CHART_TYPE) (cd : ChartData) :
    Except String String := do
  let frags ← _BubbleChartXmlWriter._ser_fragments ct cd
  Except.ok (String.join frags)

def _BubbleChartXmlWriter.xml (ct : XL_CHART_TYPE) (cd : ChartData)
    (plot : Plot) : Except String String := do
  let ser_xml ← _BubbleChartXmlWriter._ser_xml ct cd
  Except.ok ("      <c:bubbleChart>\n"
    ++ "        <c:varyColors val=\"0\"/>\n"
    ++ ser_xml
    ++ dLbls_block
    ++ "        <c:bubbleScale val=\"100\"/>\n"
    ++ "        <c:showNegBubbles val=\"0\"/>\n"
    ++ _BaseChartXmlWriter._axis_ids plot
    ++ "      </c:bubbleChart>\n")

/-- The eight plot-writer families of the `PlotXmlWriter` dispatch
dictionary. -/
inductive PlotWriterCls
  | area
  | bar
  | bubble
  | doughnut
  | line
  | pie
  | radar
  | xy
deriving DecidableEq

/-- The `PlotXmlWriter` dispatch dictionary: chart type to builder class;
a missing entry is `none` (the `KeyError` path). -/
def plotWriterCls : XL_CHART_TYPE → Option PlotWriterCls
  | .AREA => some .area
  | .AREA_STACKED => some .area
  | .AREA_STACKED_100 => some .area
  | .BAR_CLUSTERED => some .bar
  | .BAR_STACKED => some .bar
  | .BAR_STACKED_100 => some .bar
  | .BUBBLE => some .bubble
  | .BUBBLE_THREE_D_EFFECT => some .bubble
  | .COLUMN_CLUSTERED => some .bar
  | .COLUMN_STACKED => some .bar
  | .COLUMN_STACKED_100 => some .bar
  | .DOUGHNUT => some .doughnut
  | .DOUGHNUT_EXPLODED => some .doughnut
  | .LINE => some .line
  | .LINE_MARKERS => some .line
  | .LINE_MARKERS_STACKED => some .line
  | .LINE_MARKERS_STACKED_100 => some .line
  | .LINE_STACKED => some .line
  | .LINE_STACKED_100 => some .line
  | .PIE => some .pie
  | .PIE_EXPLODED => some .pie
  | .RADAR => some .radar
  | .RADAR_FILLED => some .radar
  | .RADAR_MARKERS => some .radar
  | .XY_SCATTER => some .xy
  | .XY_SCATTER_LINES => some .xy
  | .XY_SCATTER_LINES_NO_MARKERS => some .xy
  | .XY_SCATTER_SMOOTH => some .xy
  | .XY_SCATTER_SMOOTH_NO_MARKERS => some .xy
  | .STOCK_HLC => none
  | .SURFACE => none

/-- The `xml` method of one plot-writer family. -/
def PlotWriterCls.xml : PlotWriterCls → XL_CHART_TYPE → ChartData → Plot →
    Except String String
  | .area => _AreaChartXmlWriter.xml
  | .bar => _BarChartXmlWriter.xml
  | .bubble => _BubbleChartXmlWriter.xml
  | .doughnut => _DoughnutChartXmlWriter.xml
  | .line => _LineChartXmlWriter.xml
  | .pie => _PieChartXmlWriter.xml
  | .radar => _RadarChartXmlWriter.xml
  | .xy => _XyChartXmlWriter.xml

/-- `PlotXmlWriter` factory combined with the `.xml` call made on its
result: a lookup miss raises `NotImplementedError` instead of building. -/
def PlotXmlWriter (chart_type : XL_CHART_TYPE) (chart_data : ChartData)
    (plot : Plot) : Except String String :=
  match plotWriterCls chart_type with
  | none =>
      Except.error "NotImplementedError: XML writer for chart type not yet implemented"
  | some cls => cls.xml chart_type chart_data plot

/-- The three series-rewriter families. -/
inductive RewriterCls
  | category
  | xy
  | bubble
deriving DecidableEq

/-- `SeriesXmlRewriterFactory`: only the non-category chart types are in
the dictionary; every other chart type falls back to
`_CategorySeriesXmlRewriter` via `.get`'s default. -/
def SeriesXmlRewriterFactory : XL_CHART_TYPE → RewriterCls
  | .BUBBLE => .bubble
  | .BUBBLE_THREE_D_EFFECT => .bubble
  | .XY_SCATTER => .xy
  | .XY_SCATTER_LINES => .xy
  | .XY_SCATTER_LINES_NO_MARKERS => .xy
  | .XY_SCATTER_SMOOTH => .xy
  | .XY_SCATTER_SMOOTH_NO_MARKERS => .xy
  | _ => .category

/-- `AxesXmlWriter._x_axis_pos`. -/
def AxesXmlWriter._x_axis_pos : String := "b"

/-- `AxesXmlWriter._y_axis_pos`. -/
def AxesXmlWriter._y_axis_pos (secondary : Bool) : String :=
  if secondary then "r" else "l"

/-- `AxesXmlWriter._x_axis_xml`: a `c:dateAx` element for date categories,
a `c:catAx` element otherwise; any non-category chart data raises
`NotImplementedError`.  Only the date-axis template substitutes the
`hidden` flag; the `c:catAx` template hard-codes `delete` to `0`. -/
def AxesXmlWriter._x_axis_xml (cd : ChartData) (axis_id cross_ax_id : Option Nat)
    (secondary : Bool) : Except String String :=
  let hidden := if secondary then "1" else "0"
  let major_tick_mark := if secondary then "out" else "out"
  let aid := pyStr axis_id
  let cid := pyStr cross_ax_id
  let cat_ax_pos := AxesXmlWriter._x_axis_pos
  match cd with
  | .category categories _ =>
    if categories.are_dates then
      let nf := categories.number_format
      Except.ok ("      <c:dateAx>\n"
        ++ ("        <c:axId val=\"" ++ aid ++ "\"/>\n")
        ++ "        <c:scaling>\n"
        ++ "          <c:orientation val=\"minMax\"/>\n"
        ++ "        </c:scaling>\n"
        ++ ("        <c:delete val=\"" ++ hidden ++ "\"/>\n")
        ++ ("        <c:axPos val=\"" ++ cat_ax_pos ++ "\"/>\n")
        ++ ("        <c:numFmt formatCode=\"" ++ nf ++ "\" sourceLinked=\"1\"/>\n")
        ++ ("        <c:majorTickMark val=\"" ++ major_tick_mark ++ "\"/>\n")
        ++ "        <c:minorTickMark val=\"none\"/>\n"
        ++ "        <c:tickLblPos val=\"nextTo\"/>\n"
        ++ ("        <c:crossAx val=\"" ++ cid ++ "\"/>\n")
        ++ "        <c:auto val=\"1\"/>\n"
        ++ "        <c:lblOffset val=\"100\"/>\n"
        ++ "        <c:baseTimeUnit val=\"days\"/>\n"
        ++ "      </c:dateAx>\n")
    else
      Except.ok ("      <c:catAx>\n"
        ++ ("        <c:axId val=\"" ++ aid ++ "\"/>\n")
        ++ "        <c:scaling>\n"
        ++ "          <c:orientation val=\"minMax\"/>\n"
        ++ "        </c:scaling>\n"
        ++ "        <c:delete val=\"0\"/>\n"
        ++ ("        <c:axPos val=\"" ++ cat_ax_pos ++ "\"/>\n")
        ++ ("        <c:majorTickMark val=\"" ++ major_tick_mark ++ "\"/>\n")
        ++ "        <c:minorTickMark val=\"none\"/>\n"
        ++ "        <c:tickLblPos val=\"nextTo\"/>\n"
        ++ ("        <c:crossAx val=\"" ++ cid ++ "\"/>\n")
        ++ "        <c:auto val=\"1\"/>\n"
        ++ "        <c:lblAlgn val=\"ctr\"/>\n"
        ++ "        <c:lblOffset val=\"100\"/>\n"
        ++ "        <c:noMultiLvlLbl val=\"0\"/>\n"
        ++ "      </c:catAx>\n")
  | _ => Except.error "NotImplementedError: unknown chart_data type"

/-- `AxesXmlWriter._y_axis_xml`: the `c:valAx` element.  The primary value
axis crosses at `autoZero` and carries grid lines; the secondary one
crosses at `max` and has none.  Note that the `c:numFmt` line of the
template has no trailing newline in the source. -/
def AxesXmlWriter._y_axis_xml (axis_id cross_ax_id : Option Nat)
    (secondary : Bool) : String :=
  let crosses :=
    if secondary then "        <c:crosses val=\"max\"/>\n"
    else "        <c:crosses val=\"autoZero\"/>\n"
  let major_grid_lines := if secondary then "" else "        <c:majorGridlines/>\n"
  let major_tick_mark := if secondary then "none" else "none"
  let aid := pyStr axis_id
  let cid := pyStr cross_ax_id
  let val_ax_pos := AxesXmlWriter._y_axis_pos secondary
  "      <c:valAx>\n"
  ++ ("        <c:axId val=\"" ++ aid ++ "\"/>\n")
  ++ "        <c:scaling>\n"
  ++ "          <c:orientation val=\"minMax\"/>\n"
  ++ "        </c:scaling>\n"
  ++ "        <c:delete val=\"0\"/>\n"
  ++ ("        <c:axPos val=\"" ++ val_ax_pos ++ "\"/>\n")
  ++ major_grid_lines
  ++ "        <c:numFmt formatCode=\"General\" sourceLinked=\"1\"/>"
  ++ ("        <c:majorTickMark val=\"" ++ major_tick_mark ++ "\"/>\n")
  ++ "        <c:minorTickMark val=\"none\"/>\n"
  ++ "        <c:tickLblPos val=\"nextTo\"/>\n"
  ++ ("        <c:crossAx val=\"" ++ cid ++ "\"/>\n")
  ++ crosses
  ++ "        <c:crossBetween val=\"between\"/>\n"
  ++ "      </c:valAx>\n"

/-- `AxesXmlWriter.xml`: primary value axis, primary category axis, then
(when the secondary pair is allocated) the secondary value and category
axes. -/
def AxesXmlWriter.xml (chart : Chart) : Except String String := do
  let y1 := AxesXmlWriter._y_axis_xml (some chart.y_axis_id)
    (some chart.x_axis_id) false
  let x1 ← AxesXmlWriter._x_axis_xml chart.data (some chart.x_axis_id)
    (some chart.y_axis_id) false
  match chart.secondary_y_axis_id with
  | none => Except.ok (y1 ++ x1)
  | some _ => do
      let y2 := AxesXmlWriter._y_axis_xml chart.secondary_y_axis_id
        chart.secondary_x_axis_id true
      let x2 ← AxesXmlWriter._x_axis_xml chart.data
        chart.secondary_x_axis_id chart.secondary_y_axis_id true
      Except.ok (y1 ++ x1 ++ y2 ++ x2)

/-- `ChartXmlWriter._bool_to_str`. -/
def ChartXmlWriter._bool_to_str (value : Bool) : String :=
  if value then "1" else "0"

/-- `ChartXmlWriter.plots_xml`: concatenate the plot-group XML of every
plot, each via the dispatched writer. -/
def ChartXmlWriter.plots_xml (chart : Chart) : Except String String :=
  chart.plots.foldlM
    (fun acc plot => do
      let x ← PlotXmlWriter plot.chart_type chart.data plot
      Except.ok (acc ++ x)) ""

/-- `ChartXmlWriter.axes_xml`: the axes block iff the chart has axes. -/
def ChartXmlWriter.axes_xml (chart : Chart) : Except String String :=
  if chart.has_axes then AxesXmlWriter.xml chart else Except.ok ""

/-- `ChartXmlWriter.xml`: the complete `c:chartSpace` document, with the
writer's two document-level flags at their `False` defaults. -/
def ChartXmlWriter.xml (chart : Chart) : Except String String := do
  let date_1904_xml := ChartXmlWriter._bool_to_str false
  let rounded_corners_xml := ChartXmlWriter._bool_to_str false
  let plots_xml ← ChartXmlWriter.plots_xml chart
  let axes_xml ← ChartXmlWriter.axes_xml chart
  Except.ok ("<?xml version=\x271.0\x27 encoding=\x27UTF-8\x27 standalone=\x27yes\x27?>\n"
    ++ "<c:chartSpace xmlns:c=\"http://schemas.openxmlformats.org/drawin"
    ++ "gml/2006/chart\" xmlns:a=\"http://schemas.openxmlformats.org/draw"
    ++ "ingml/2006/main\" xmlns:r=\"http://schemas.openxmlformats.org/off"
    ++ "iceDocument/2006/relationships\">\n"
    ++ s!"  <c:date1904 val=\"{date_1904_xml}\"/>\n"
    ++ s!"  <c:roundedCorners val=\"{rounded_corners_xml}\"/>\n"
    ++ "  <c:chart>\n"
    ++ "    <c:autoTitleDeleted val=\"1\"/>\n"
    ++ "    <c:plotArea>\n"
    ++ "      <c:layout/>\n"
    ++ plots_xml
    ++ axes_xml
    ++ "    </c:plotArea>\n"
    ++ "    <c:legend>\n"
    ++ "      <c:legendPos val=\"r\"/>\n"
    ++ "      <c:layout/>\n"
    ++ "      <c:overlay val=\"0\"/>\n"
    ++ "    </c:legend>\n"
    ++ "    <c:plotVisOnly val=\"1\"/>\n"
    ++ "    <c:dispBlanksAs val=\"gap\"/>\n"
    ++ "    <c:showDLblsOverMax val=\"0\"/>\n"
    ++ "  </c:chart>\n"
    ++ "  <c:spPr>\n"
    ++ "    <a:noFill/>\n"
    ++ "    <a:ln>\n"
    ++ "      <a:noFill/>\n"
    ++ "    </a:ln>\n"
    ++ "    <a:effectLst/>\n"
    ++ "  </c:spPr>\n"
    ++ "  <c:txPr>\n"
    ++ "    <a:bodyPr/>\n"
    ++ "    <a:lstStyle/>\n"
    ++ "    <a:p>\n"
    ++ "      <a:pPr>\n"
    ++ "        <a:defRPr/>\n"
    ++ "      </a:pPr>\n"
    ++ "      <a:endParaRPr lang=\"en-US\"/>\n"
    ++ "    </a:p>\n"
    ++ "  </c:txPr>\n"
    ++ "</c:chartSpace>\n")

/-- One child element of a `c:ser` element, as a (tag, serialized content)
pair; the content string is compared byte for byte. -/
structure SerChild where
  tag : String
  content : String
deriving DecidableEq

/-- A `c:ser` element: its `c:idx` and `c:order` attribute values (the
`CT_UnsignedInt` children mutated by cloning) plus its remaining child
elements in document order. -/
structure Ser where
  idx : Nat
  order : Nat
  children : List SerChild
deriving DecidableEq

/-- One `xChart` (plot-group) element: its tag and its `c:ser` children in
document order. -/
structure XChart where
  tag : String
  sers : List Ser
deriving DecidableEq

/-- The `c:plotArea` element: its plot-group children in document order. -/
structure PlotArea where
  xCharts : List XChart
deriving DecidableEq

/-- The `c:chartSpace` element as seen by `replace_series_data`. -/
structure ChartSpace where
  date_1904 : Bool
  plotArea : PlotArea
deriving DecidableEq

/-- The `c:ser` elements of a list of plot groups, in document order. -/
def sersOf (l : List XChart) : List Ser :=
  l.foldr (fun xc acc => xc.sers ++ acc) []

/-- `CT_PlotArea.sers`: all `c:ser` grandchildren in document order.
Modelled from the spec: the `CT_PlotArea` accessors live in
`pptx/oxml/chart/plotarea.py`, which is not under `src/`. -/
def PlotArea.sers (pa : PlotArea) : List Ser :=
  sersOf pa.xCharts

/-- The largest `c:idx` value among a list of series elements. -/
def maxIdx (l : List Ser) : Nat :=
  (l.map Ser.idx).foldl Nat.max 0

/-- The largest `c:order` value among a list of series elements. -/
def maxOrder (l : List Ser) : Nat :=
  (l.map Ser.order).foldl Nat.max 0

/-- `CT_PlotArea.next_idx`: one greater than the running maximum `c:idx`
value, `0` when there is no series.  Modelled from the spec ("index/order
attributes incremented by one from the running maximum"); the accessor
itself lives outside `src/`. -/
def PlotArea.next_idx (pa : PlotArea) : Nat :=
  if pa.sers.isEmpty then 0 else maxIdx pa.sers + 1

/-- `CT_PlotArea.next_order`: one greater than the running maximum
`c:order` value, `0` when there is no series.  Modelled from the spec;
the accessor itself lives outside `src/`. -/
def PlotArea.next_order (pa : PlotArea) : Nat :=
  if pa.sers.isEmpty then 0 else maxOrder pa.sers + 1

/-- `CT_PlotArea.last_ser`: the last `c:ser` element in document order,
`none` when there is no series.  Modelled from the spec; the accessor
itself lives outside `src/`. -/
def PlotArea.last_ser (pa : PlotArea) : Option Ser :=
  pa.sers.getLast?

/-- lxml `ser.addnext(new_ser)` applied to the document-order-last series
element: insert `s` immediately after the last `c:ser`, inside the plot
group that holds it. -/
def addAfterLastSer (s : Ser) : List XChart → List XChart
  | [] => []
  | xc :: rest =>
      if (sersOf rest).isEmpty then
        { xc with sers := xc.sers ++ [s] } :: rest
      else
        xc :: addAfterLastSer s rest

/-- `_BaseSeriesXmlRewriter._add_cloned_sers`: clone the last series
element `count` times; each clone is a deep copy of its source with fresh
`idx`/`order` values, inserted immediately after its source, which makes
it the source of the next clone.  Fails (Python `AttributeError` on
`None`) when there is no series to clone. -/
def _add_cloned_sers (pa : PlotArea) : Nat → Option PlotArea
  | 0 => some pa
  | count + 1 =>
      match pa.last_ser with
      | none => none
      | some last =>
          let new_ser : Ser :=
            { last with idx := pa.next_idx, order := pa.next_order }
          _add_cloned_sers ⟨addAfterLastSer new_ser pa.xCharts⟩ count

/-- Keep only the first `k` series elements (in document order), removing
the rest from their parent plot groups. -/
def takeSers : List XChart → Nat → List XChart
  | [], _ => []
  | xc :: rest, k =>
      { xc with sers := xc.sers.take k } :: takeSers rest (k - xc.sers.length)

/-- `_BaseSeriesXmlRewriter._trim_ser_count_by`: remove the last `count`
series elements from their parents, then remove every plot-group element
having no series child. -/
def _trim_ser_count_by (pa : PlotArea) (count : Nat) : PlotArea :=
  ⟨(takeSers pa.xCharts (pa.sers.length - count)).filter
    (fun xChart => !xChart.sers.isEmpty)⟩

/-- `_BaseSeriesXmlRewriter._adjust_ser_count`: grow by cloning or shrink
by trimming until the series-element count matches `new_ser_count`. -/
def _adjust_ser_count (pa : PlotArea) (new_ser_count : Nat) :
    Option PlotArea :=
  if pa.sers.length < new_ser_count then
    _add_cloned_sers pa (new_ser_count - pa.sers.length)
  else if new_ser_count < pa.sers.length then
    some (_trim_ser_count_by pa (pa.sers.length - new_ser_count))
  else
    some pa

/-- The fixed `c:ser` child-element sequence of the chart schema.
Modelled from the spec: element ordering inside `c:ser` is dictated by
the external markup vocabulary (the `CT_Ser` oxml class enforcing it is
not under `src/`). -/
def serTagSeq : List String :=
  ["c:idx", "c:order", "c:tx", "c:spPr", "c:invertIfNegative",
   "c:pictureOptions", "c:marker", "c:explosion", "c:dPt", "c:dLbls",
   "c:trendline", "c:errBars", "c:cat", "c:val", "c:xVal", "c:yVal",
   "c:shape", "c:smooth", "c:bubbleSize", "c:bubble3D", "c:extLst"]

/-- The position of a tag in the schema's `c:ser` child sequence. -/
def tagRank (t : String) : Option Nat :=
  serTagSeq.findIdx? (fun x => x = t)

/-- Whether tag `b` is a schema successor of tag `a` (both known to the
sequence and `b` strictly later). -/
def isSuccessorTag (a b : String) : Bool :=
  match tagRank a, tagRank b with
  | some i, some j => i < j
  | _, _ => false

/-- oxml `_insert_<el>`: insert the element before the first child whose
tag is one of its schema successors, else append. -/
def insertEl (e : SerChild) : List SerChild → List SerChild
  | [] => [e]
  | c :: rest =>
      if isSuccessorTag e.tag c.tag then e :: c :: rest
      else c :: insertEl e rest

/-- oxml `_remove_<el>`: remove every child carrying the given tag. -/
def removeTag (t : String) (l : List SerChild) : List SerChild :=
  l.filter (fun c => c.tag != t)

/-- `_CategorySeriesXmlRewriter._rewrite_ser_data`: drop the `c:tx`,
`c:cat` and `c:val` children and insert freshly built ones at their
schema positions; every other child (and the `idx`/`order` attributes)
is untouched. -/
def _CategorySeriesXmlRewriter._rewrite_ser_data (date_1904 : Bool)
    (ser : Ser) (series_data : CategorySeriesData) : Ser :=
  let ch := removeTag "c:tx" ser.children
  let ch := removeTag "c:cat" ch
  let ch := removeTag "c:val" ch
  let ch := insertEl ⟨"c:tx", series_data.tx_oxml⟩ ch
  let ch := insertEl ⟨"c:cat", _CategorySeriesXmlWriter.cat_oxml series_data⟩ ch
  let ch := insertEl ⟨"c:val", _CategorySeriesXmlWriter.val_oxml series_data⟩ ch
  { ser with children := ch }

/-- `_XySeriesXmlRewriter._rewrite_ser_data`: same shape, over the
`c:tx`, `c:xVal` and `c:yVal` children. -/
def _XySeriesXmlRewriter._rewrite_ser_data (ser : Ser)
    (series_data : XySeriesData) : Ser :=
  let ch := removeTag "c:tx" ser.children
  let ch := removeTag "c:xVal" ch
  let ch := removeTag "c:yVal" ch
  let ch := insertEl ⟨"c:tx", series_data.tx_oxml⟩ ch
  let ch := insertEl ⟨"c:xVal", _XySeriesXmlWriter.xVal_oxml series_data⟩ ch
  let ch := insertEl ⟨"c:yVal", _XySeriesXmlWriter.yVal_oxml series_data⟩ ch
  { ser with children := ch }

/-- `_BubbleSeriesXmlRewriter._rewrite_ser_data`: same shape, over the
`c:tx`, `c:xVal`, `c:yVal` and `c:bubbleSize` children. -/
def _BubbleSeriesXmlRewriter._rewrite_ser_data (ser : Ser)
    (series_data : BubbleSeriesData) : Ser :=
  let ch := removeTag "c:tx" ser.children
  let ch := removeTag "c:xVal" ch
  let ch := removeTag "c:yVal" ch
  let ch := removeTag "c:bubbleSize" ch
  let ch := insertEl ⟨"c:tx", series_data.tx_oxml⟩ ch
  let ch := insertEl ⟨"c:xVal",
    _XySeriesXmlWriter.xVal_oxml series_data.toXySeriesData⟩ ch
  let ch := insertEl ⟨"c:yVal",
    _XySeriesXmlWriter.yVal_oxml series_data.toXySeriesData⟩ ch
  let ch := insertEl ⟨"c:bubbleSize",
    _BubbleSeriesXmlWriter.bubbleSize_oxml series_data⟩ ch
  { ser with children := ch }

/-- Rewrite the leading series elements of one plot group with the
matching prefix of the series-data list (the truncating-`zip` pairing of
`replace_series_data`, specialized to one plot group). -/
def zipRewrite (f : Ser → α → Ser) : List Ser → List α → List Ser
  | ss, [] => ss
  | [], _ => []
  | s :: ss, d :: ds => f s d :: zipRewrite f ss ds

/-- Distribute the series-data list across the plot groups in document
order, rewriting each paired series element in place. -/
def rewriteXCharts (f : Ser → α → Ser) : List XChart → List α → List XChart
  | [], _ => []
  | xc :: rest, ds =>
      { xc with sers := zipRewrite f xc.sers (ds.take xc.sers.length) }
        :: rewriteXCharts f rest (ds.drop xc.sers.length)

/-- `_BaseSeriesXmlRewriter.replace_series_data` with the per-family
rewrite function `f`: adjust the series-element count to the data length,
then rewrite each (series element, series data) pair in order. -/
def replace_series_data_with (f : Ser → α → Ser) (ds : List α)
    (cs : ChartSpace) : Option ChartSpace :=
  match _adjust_ser_count cs.plotArea ds.length with
  | none => none
  | some pa => some { cs with plotArea := ⟨rewriteXCharts f pa.xCharts ds⟩ }

/-- `replace_series_data` as dispatched by `SeriesXmlRewriterFactory`:
each rewriter family rewrites chart data of its own shape (bubble series
also satisfy the XY rewriter's needs, mirroring Python duck typing); any
other pairing fails on the first attribute access. -/
def replace_series_data : RewriterCls → ChartData → ChartSpace →
    Option ChartSpace
  | .category, .category _ sers, cs =>
      replace_series_data_with
        (_CategorySeriesXmlRewriter._rewrite_ser_data cs.date_1904) sers cs
  | .xy, .xy sers, cs =>
      replace_series_data_with _XySeriesXmlRewriter._rewrite_ser_data sers cs
  | .xy, .bubble sers, cs =>
      replace_series_data_with _XySeriesXmlRewriter._rewrite_ser_data
        (sers.map BubbleSeriesData.toXySeriesData) cs
  | .bubble, .bubble sers, cs =>
      replace_series_data_with _BubbleSeriesXmlRewriter._rewrite_ser_data
        sers cs
  | _, _, _ => none

/-- Whether an `Except` result is a success. -/
def isOkE {ε α : Type} : Except ε α → Bool
  | .ok _ => true
  | .error _ => false

/-- Placeholder series element used only as a `getD` default under a
nonemptiness hypothesis. -/
def dummySer : Ser := ⟨0, 0, []⟩

/-- Keep predicate for series children not owned by the category data
fragments (`c:tx`, `c:cat`, `c:val`). -/
def keepNonCatData (c : SerChild) : Bool :=
  (c.tag != "c:tx") && ((c.tag != "c:cat") && (c.tag != "c:val"))

/-- Keep predicate for series children not owned by the XY data fragments
(`c:tx`, `c:xVal`, `c:yVal`). -/
def keepNonXyData (c : SerChild) : Bool :=
  (c.tag != "c:tx") && ((c.tag != "c:xVal") && (c.tag != "c:yVal"))

/-- Keep predicate for series children not owned by the bubble data
fragments (`c:tx`, `c:xVal`, `c:yVal`, `c:bubbleSize`). -/
def keepNonBubbleData (c : SerChild) : Bool :=
  (c.tag != "c:tx") && ((c.tag != "c:xVal")
    && ((c.tag != "c:yVal") && (c.tag != "c:bubbleSize")))

/-- Concrete plot area used to instantiate `C1_reconcile_count`. -/
def paC1 : PlotArea :=
  ⟨[⟨"c:barChart", [⟨0, 0, [⟨"c:spPr", "fillA"⟩]⟩]⟩]⟩

/-- Concrete chart space and chart data used to instantiate
`C10_replace_idempotent`. -/
def csC10 : ChartSpace :=
  ⟨false, ⟨[⟨"c:barChart",
    [⟨0, 0, [⟨"c:tx", "oldname"⟩, ⟨"c:spPr", "fillA"⟩]⟩]⟩]⟩⟩

/-- Concrete category chart data (two series) used to instantiate
`C10_replace_idempotent`. -/
def cdC10 : ChartData :=
  .category (.strings ["c1"])
    [⟨"s1", "Sheet1!$B$1", .strings ["c1"], "Sheet1!$A$2:$A$2",
      "Sheet1!$B$2:$B$2", "General", [some "1.5"], 0⟩,
     ⟨"s2", "Sheet1!$C$1", .strings ["c1"], "Sheet1!$A$2:$A$2",
      "Sheet1!$C$2:$C$2", "General", [none], 1⟩]

/-- First concrete series for the C5 counterexample. -/
def serC5a : CategorySeriesData :=
  ⟨"sa", "Sheet1!$B$1", .strings ["k"], "Sheet1!$A$2", "Sheet1!$B$2",
    "General", [some "1"], 0⟩

/-- Second concrete series for the C5 counterexample. -/
def serC5b : CategorySeriesData :=
  ⟨"sb", "Sheet1!$C$1", .strings ["k"], "Sheet1!$A$2", "Sheet1!$C$2",
    "General", [some "2"], 1⟩

/-- Concrete chart data (two series) for the C5 counterexample. -/
def cdC5 : ChartData := .category (.strings ["k"]) [serC5a, serC5b]

/-- Concrete series used to instantiate the C3 render-totality theorem. -/
def serC3w : CategorySeriesData :=
  ⟨"sw", "Sheet1!$B$1", .strings ["m"], "Sheet1!$A$2", "Sheet1!$B$2",
    "General", [some "3"], 0⟩

/-- Concrete area plot owning only the first series. -/
def plotC5 : Plot := ⟨.AREA, [serC5a], false, none, none⟩

/-- Concrete empty chart (no plots, category data) for the C6
counterexample. -/
def chartC6 : Chart :=
  { data := .category (.strings ["a"]) [], plots := [],
    x_axis_id := 1, y_axis_id := 2 }

/-- The 22 chart types of the category-shaped plot-writer families. -/
def categoryChartTypes : List XL_CHART_TYPE :=
  [.AREA, .AREA_STACKED, .AREA_STACKED_100,
   .BAR_CLUSTERED, .BAR_STACKED, .BAR_STACKED_100,
   .COLUMN_CLUSTERED, .COLUMN_STACKED, .COLUMN_STACKED_100,
   .DOUGHNUT, .DOUGHNUT_EXPLODED,
   .LINE, .LINE_MARKERS, .LINE_MARKERS_STACKED, .LINE_MARKERS_STACKED_100,
   .LINE_STACKED, .LINE_STACKED_100,
   .PIE, .PIE_EXPLODED,
   .RADAR, .RADAR_FILLED, .RADAR_MARKERS]

/-- Concrete XY series for the C3 counterexample. -/
def xySerC3 : XySeriesData :=
  ⟨"s1", "Sheet1!$B$1", [some "1"], [some "2"], "Sheet1!$A$2",
    "Sheet1!$B$2", "General", 0⟩

/-- Concrete scatter chart for the C3 counterexample. -/
def chartC3 : Chart :=
  { data := .xy [xySerC3], plots := [⟨.XY_SCATTER, [], false, some 1, some 2⟩],
    x_axis_id := 1, y_axis_id := 2 }

/-- Concrete category chart data for the C9 statements. -/
def dataC9 : ChartData := .category (.strings []) []

/-- Chart built with a random stream that yields 5 for every draw. -/
def chartC9 : Chart := (Chart.init dataC9 [5, 5]).1

/-- A secondary-axis column plot. -/
def plotC9 : Plot := ⟨.COLUMN_CLUSTERED, [], true, none, none⟩

/-- Chart and plot used to instantiate the add-plot half of
`C9_axis_ids_24bit`. -/
def chartC9w : Chart := (Chart.init dataC9 [1, 2]).1

/-- Result of adding a secondary-axis plot to `chartC9w` with a large
draw, as computed by `Chart.add_plot`. -/
def outC9w : Chart × List Nat :=
  (Chart.add_plot chartC9w plotC9 [99999999, 123]).toOption.getD (chartC9w, [])

/-- The secondary category axis emitted for plain string categories. -/
def c7axC : String :=
  (AxesXmlWriter._x_axis_xml (.category (.strings ["a"]) []) (some 1) (some 2)
    true).toOption.getD ""

theorem isPrefixOf_append_self :
    ∀ (l t : List Char), l.isPrefixOf (l ++ t) = true := by
  intro l
  induction l with
  | nil => intro t; simp [List.isPrefixOf]
  | cons c cs ih => intro t; simp [List.isPrefixOf, ih]

theorem append_of_isPrefixOf :
    ∀ (l s : List Char), l.isPrefixOf s = true → ∃ t, s = l ++ t := by
  intro l
  induction l with
  | nil => intro s _; exact ⟨s, rfl⟩
  | cons c cs ih =>
      intro s h
      cases s with
      | nil => simp [List.isPrefixOf] at h
      | cons x xs =>
          simp only [List.isPrefixOf, Bool.and_eq_true, beq_iff_eq] at h
          obtain ⟨t, ht⟩ := ih xs h.2
          exact ⟨t, by simp [h.1, ht]⟩

theorem subListB_of_append (pat b : List Char) :
    ∀ a : List Char, subListB pat (a ++ pat ++ b) = true := by
  intro a
  induction a with
  | nil =>
      match hp : pat with
      | [] =>
        cases b with
        | nil => simp [subListB, List.isEmpty]
        | cons c cs => simp [subListB, List.isPrefixOf]
      | p :: ps =>
        simp only [List.nil_append, List.cons_append, subListB]
        have : (p :: ps).isPrefixOf ((p :: ps) ++ b) = true :=
          isPrefixOf_append_self (p :: ps) b
        simp [this]
  | cons c cs ih =>
      simp only [List.cons_append, subListB, Bool.or_eq_true]
      refine Or.inr ?_
      simpa [List.append_assoc] using ih

theorem not_occursIn_of_containsSub_false {pat s : String}
    (h : containsSub s pat = false) : ¬ occursIn pat s := by
  rintro ⟨a, b, rfl⟩
  have hd : (a ++ pat ++ b).data = a.data ++ pat.data ++ b.data := by
    simp [String.data_append]
  unfold containsSub at h
  rw [hd] at h
  rw [subListB_of_append pat.data b.data a.data] at h
  exact absurd h (by simp)

theorem occursIn_left {pat s : String} (t : String) (h : occursIn pat s) :
    occursIn pat (s ++ t) := by
  obtain ⟨a, b, rfl⟩ := h
  exact ⟨a, b ++ t, by simp [String.append_assoc]⟩

theorem occursIn_right {pat t : String} (s : String) (h : occursIn pat t) :
    occursIn pat (s ++ t) := by
  obtain ⟨a, b, rfl⟩ := h
  exact ⟨s ++ a, b, by simp [String.append_assoc]⟩

theorem subListB_sound {pat : List Char} :
    ∀ {s : List Char}, subListB pat s = true → ∃ a b, s = a ++ pat ++ b := by
  intro s
  induction s with
  | nil =>
      intro h
      simp [subListB, List.isEmpty_iff] at h
      exact ⟨[], [], by simp [h]⟩
  | cons c cs ih =>
      intro h
      simp only [subListB, Bool.or_eq_true] at h
      rcases h with h | h
      · obtain ⟨t, ht⟩ := append_of_isPrefixOf pat (c :: cs) h
        exact ⟨[], t, by simp [ht]⟩
      · obtain ⟨a, b, hab⟩ := ih h
        exact ⟨c :: a, b, by simp [hab]⟩

theorem occursIn_of_containsSub {pat s : String}
    (h : containsSub s pat = true) : occursIn pat s := by
  obtain ⟨a, b, hab⟩ := subListB_sound h
  refine ⟨⟨a⟩, ⟨b⟩, ?_⟩
  apply String.ext
  simpa [String.data_append] using hab

theorem sersOf_nil : sersOf [] = [] := rfl

theorem sersOf_cons (xc : XChart) (rest : List XChart) :
    sersOf (xc :: rest) = xc.sers ++ sersOf rest := rfl

/-- Inserting after the document-order-last series element appends it to
the flattened series sequence. -/
theorem sersOf_addAfterLastSer (s : Ser) :
    ∀ (l : List XChart), l ≠ [] →
      sersOf (addAfterLastSer s l) = sersOf l ++ [s] := by
  intro l
  induction l with
  | nil => intro h; exact absurd rfl h
  | cons xc rest ih =>
      intro _
      by_cases hrest : (sersOf rest).isEmpty
      · have hre : sersOf rest = [] := by
          simpa [List.isEmpty_iff] using hrest
        simp [addAfterLastSer, hrest, sersOf_cons, hre]
      · have hne : rest ≠ [] := by
          intro hc; subst hc; simp [sersOf_nil] at hrest
        simp [addAfterLastSer, hrest, sersOf_cons, ih hne, List.append_assoc]

theorem maxIdx_concat (L : List Ser) (c : Ser) :
    maxIdx (L ++ [c]) = Nat.max (maxIdx L) c.idx := by
  simp [maxIdx, List.map_append, List.foldl_append]

theorem maxOrder_concat (L : List Ser) (c : Ser) :
    maxOrder (L ++ [c]) = Nat.max (maxOrder L) c.order := by
  simp [maxOrder, List.map_append, List.foldl_append]

/-- Specification of `_add_cloned_sers`: starting from a nonempty series
sequence, it succeeds and appends `d` copies of the last series element,
the `i`-th copy carrying `idx` and `order` values `i + 1` above the
respective running maxima. -/
theorem add_cloned_sers_spec :
    ∀ (d : Nat) (pa : PlotArea), pa.sers ≠ [] →
      ∃ pa', _add_cloned_sers pa d = some pa' ∧
        pa'.sers = pa.sers ++ (List.range d).map (fun i =>
          { pa.sers.getLast?.getD dummySer with
              idx := maxIdx pa.sers + 1 + i,
              order := maxOrder pa.sers + 1 + i }) := by
  intro d
  induction d with
  | zero =>
      intro pa h
      exact ⟨pa, rfl, by simp⟩
  | succ d ih =>
      intro pa h
      have hx : pa.xCharts ≠ [] := by
        intro hc
        apply h
        show sersOf pa.xCharts = []
        rw [hc]; rfl
      obtain ⟨last, hlast⟩ : ∃ a, pa.sers.getLast? = some a := by
        rcases hs : pa.sers.getLast? with _ | a
        · exact absurd (List.getLast?_eq_none.mp hs) h
        · exact ⟨a, rfl⟩
      have hnotempty : pa.sers.isEmpty = false := by
        cases hs : pa.sers with
        | nil => exact absurd hs h
        | cons x xs => rfl
      set new_ser : Ser :=
        { last with idx := pa.next_idx, order := pa.next_order } with hnew
      have hstep : _add_cloned_sers pa (d + 1) =
          _add_cloned_sers ⟨addAfterLastSer new_ser pa.xCharts⟩ d := by
        simp [_add_cloned_sers, PlotArea.last_ser, hlast, hnew]
      set pa1 : PlotArea := ⟨addAfterLastSer new_ser pa.xCharts⟩ with hpa1
      have hsers1 : pa1.sers = pa.sers ++ [new_ser] := by
        simpa [PlotArea.sers, hpa1] using
          sersOf_addAfterLastSer new_ser pa.xCharts hx
      have h1ne : pa1.sers ≠ [] := by simp [hsers1]
      obtain ⟨pa', hrun, hchar⟩ := ih pa1 h1ne
      refine ⟨pa', by rw [hstep]; exact hrun, ?_⟩
      have hlast1 : pa1.sers.getLast? = some new_ser := by
        rw [hsers1]; exact List.getLast?_concat _
      have hidx1 : maxIdx pa1.sers = maxIdx pa.sers + 1 := by
        rw [hsers1, maxIdx_concat]
        have : new_ser.idx = maxIdx pa.sers + 1 := by
          simp [hnew, PlotArea.next_idx, hnotempty]
        rw [this]
        exact Nat.max_eq_right (Nat.le_succ _)
      have hord1 : maxOrder pa1.sers = maxOrder pa.sers + 1 := by
        rw [hsers1, maxOrder_concat]
        have : new_ser.order = maxOrder pa.sers + 1 := by
          simp [hnew, PlotArea.next_order, hnotempty]
        rw [this]
        exact Nat.max_eq_right (Nat.le_succ _)
      rw [hchar]
      simp only [hlast1, hlast, Option.getD_some, hidx1, hord1]
      rw [hsers1, List.append_assoc]
      congr 1
      rw [List.range_succ_eq_map, List.map_cons, List.map_map,
        List.singleton_append]
      congr 1
      · simp [hnew, PlotArea.next_idx, PlotArea.next_order, hnotempty]
      · apply List.map_congr_left
        intro i _
        simp only [Function.comp, Ser.mk.injEq]
        refine ⟨by omega, by omega, trivial⟩

/-- The series elements kept by `takeSers` are the first `k` of the
flattened sequence. -/
theorem sersOf_takeSers :
    ∀ (l : List XChart) (k : Nat), sersOf (takeSers l k) = (sersOf l).take k := by
  intro l
  induction l with
  | nil => intro k; simp [takeSers, sersOf_nil]
  | cons xc rest ih =>
      intro k
      simp only [takeSers, sersOf_cons, ih, List.take_append_eq_append_take]

/-- Removing empty plot groups does not change the flattened series
sequence. -/
theorem sersOf_filter_nonempty (l : List XChart) :
    sersOf (l.filter (fun xChart => !xChart.sers.isEmpty)) = sersOf l := by
  induction l with
  | nil => rfl
  | cons xc rest ih =>
      by_cases h : xc.sers.isEmpty
      · have : xc.sers = [] := by simpa [List.isEmpty_iff] using h
        simp [List.filter, h, sersOf_cons, this, ih]
      · simp [List.filter, h, sersOf_cons, ih]

/-- Specification of `_trim_ser_count_by`: the result's series sequence is
the old one truncated, and no remaining plot group is empty. -/
theorem trim_ser_count_by_spec (pa : PlotArea) (count : Nat) :
    (_trim_ser_count_by pa count).sers = pa.sers.take (pa.sers.length - count)
    ∧ ∀ xc ∈ (_trim_ser_count_by pa count).xCharts, xc.sers ≠ [] := by
  constructor
  · show sersOf _ = _
    rw [_trim_ser_count_by]
    simp only
    rw [sersOf_filter_nonempty, sersOf_takeSers]
    rfl
  · intro xc hmem
    rw [_trim_ser_count_by] at hmem
    simp only at hmem
    have := (List.mem_filter.mp hmem).2
    simpa [List.isEmpty_iff] using this

/-- Filtering away an element just inserted (the filter rejects it)
leaves the filter of the original list. -/
theorem filter_insertEl_of_false {p : SerChild → Bool} {e : SerChild}
    (he : p e = false) :
    ∀ l : List SerChild, (insertEl e l).filter p = l.filter p := by
  intro l
  induction l with
  | nil => simp [insertEl, List.filter, he]
  | cons c rest ih =>
      by_cases hs : isSuccessorTag e.tag c.tag
      · simp [insertEl, hs, List.filter, he]
      · simp only [insertEl, hs, if_false, List.filter]
        cases hp : p c <;> simp [hp, ih]

/-- A chain of two tag removals written as a single filter. -/
theorem removeTag_removeTag (t₁ t₂ : String) (l : List SerChild) :
    removeTag t₂ (removeTag t₁ l) =
      l.filter (fun c => (c.tag != t₂) && (c.tag != t₁)) := by
  simp [removeTag, List.filter_filter]

/-- A chain of three tag removals written as a single filter. -/
theorem removeTag_three (t₁ t₂ t₃ : String) (l : List SerChild) :
    removeTag t₃ (removeTag t₂ (removeTag t₁ l)) =
      l.filter (fun c => (c.tag != t₃) && ((c.tag != t₂) && (c.tag != t₁))) := by
  simp [removeTag, List.filter_filter]

/-- A chain of four tag removals written as a single filter. -/
theorem removeTag_four (t₁ t₂ t₃ t₄ : String) (l : List SerChild) :
    removeTag t₄ (removeTag t₃ (removeTag t₂ (removeTag t₁ l))) =
      l.filter (fun c =>
        (c.tag != t₄) && ((c.tag != t₃) && ((c.tag != t₂) && (c.tag != t₁)))) := by
  simp [removeTag, List.filter_filter]

theorem zipRewrite_length {α : Type} (f : Ser → α → Ser) :
    ∀ (ss : List Ser) (ds : List α), (zipRewrite f ss ds).length = ss.length := by
  intro ss
  induction ss with
  | nil => intro ds; cases ds <;> rfl
  | cons s rest ih =>
      intro ds
      cases ds with
      | nil => rfl
      | cons d ds' => simp [zipRewrite, ih]

theorem zipRewrite_idem {α : Type} (f : Ser → α → Ser)
    (hf : ∀ s d, f (f s d) d = f s d) :
    ∀ (ss : List Ser) (ds : List α),
      zipRewrite f (zipRewrite f ss ds) ds = zipRewrite f ss ds := by
  intro ss
  induction ss with
  | nil => intro ds; cases ds <;> rfl
  | cons s rest ih =>
      intro ds
      cases ds with
      | nil => rfl
      | cons d ds' => simp [zipRewrite, hf, ih]

theorem sersOf_rewriteXCharts_length {α : Type} (f : Ser → α → Ser) :
    ∀ (l : List XChart) (ds : List α),
      (sersOf (rewriteXCharts f l ds)).length = (sersOf l).length := by
  intro l
  induction l with
  | nil => intro ds; rfl
  | cons xc rest ih =>
      intro ds
      simp [rewriteXCharts, sersOf_cons, zipRewrite_length, ih]

theorem rewriteXCharts_idem {α : Type} (f : Ser → α → Ser)
    (hf : ∀ s d, f (f s d) d = f s d) :
    ∀ (l : List XChart) (ds : List α),
      rewriteXCharts f (rewriteXCharts f l ds) ds = rewriteXCharts f l ds := by
  intro l
  induction l with
  | nil => intro ds; rfl
  | cons xc rest ih =>
      intro ds
      simp only [rewriteXCharts]
      rw [zipRewrite_length]
      rw [zipRewrite_idem f hf, ih]

/-- `_adjust_ser_count` always leaves exactly `n` series elements when it
succeeds. -/
theorem adjust_ser_count_length {pa : PlotArea} {n : Nat} {pa' : PlotArea}
    (h : _adjust_ser_count pa n = some pa') : pa'.sers.length = n := by
  unfold _adjust_ser_count at h
  by_cases h1 : pa.sers.length < n
  · rw [if_pos h1] at h
    have hne : pa.sers ≠ [] := by
      intro hc
      rw [hc] at h1
      simp at h1
      obtain ⟨m, hm⟩ : ∃ m, n = m + 1 := ⟨n - 1, by omega⟩
      have hso : sersOf pa.xCharts = [] := hc
      rw [hc] at h
      simp only [hm, List.length_nil, Nat.sub_zero, _add_cloned_sers,
        PlotArea.last_ser, PlotArea.sers, hso] at h
      simp at h
    obtain ⟨pa'', hrun, hchar⟩ :=
      add_cloned_sers_spec (n - pa.sers.length) pa hne
    rw [hrun] at h
    cases h
    rw [hchar]
    simp
    omega
  · rw [if_neg h1] at h
    by_cases h2 : n < pa.sers.length
    · rw [if_pos h2] at h
      cases h
      rw [(trim_ser_count_by_spec pa (pa.sers.length - n)).1]
      simp
      omega
    · rw [if_neg h2] at h
      cases h
      omega

theorem filter_ins3 (p : SerChild → Bool) (e₁ e₂ e₃ : SerChild)
    (h₁ : p e₁ = false) (h₂ : p e₂ = false) (h₃ : p e₃ = false)
    (l : List SerChild) :
    (insertEl e₃ (insertEl e₂ (insertEl e₁ l))).filter p = l.filter p := by
  rw [filter_insertEl_of_false h₃, filter_insertEl_of_false h₂,
    filter_insertEl_of_false h₁]

theorem filter_ins4 (p : SerChild → Bool) (e₁ e₂ e₃ e₄ : SerChild)
    (h₁ : p e₁ = false) (h₂ : p e₂ = false) (h₃ : p e₃ = false)
    (h₄ : p e₄ = false) (l : List SerChild) :
    (insertEl e₄ (insertEl e₃ (insertEl e₂ (insertEl e₁ l)))).filter p
      = l.filter p := by
  rw [filter_insertEl_of_false h₄, filter_insertEl_of_false h₃,
    filter_insertEl_of_false h₂, filter_insertEl_of_false h₁]

theorem filter_self_idem (p : SerChild → Bool) (l : List SerChild) :
    (l.filter p).filter p = l.filter p := by
  simp [List.filter_filter]

/-- The category series rewriter is idempotent on a series element. -/
theorem cat_rewrite_idem (d4 : Bool) (s : Ser) (sd : CategorySeriesData) :
    _CategorySeriesXmlRewriter._rewrite_ser_data d4
      (_CategorySeriesXmlRewriter._rewrite_ser_data d4 s sd) sd
    = _CategorySeriesXmlRewriter._rewrite_ser_data d4 s sd := by
  show Ser.mk _ _ _ = Ser.mk _ _ _
  unfold _CategorySeriesXmlRewriter._rewrite_ser_data
  simp only
  congr 1
  rw [removeTag_three, removeTag_three]
  rw [filter_ins3 _ _ _ _ rfl rfl rfl]
  rw [filter_self_idem]

/-- The XY series rewriter is idempotent on a series element. -/
theorem xy_rewrite_idem (s : Ser) (sd : XySeriesData) :
    _XySeriesXmlRewriter._rewrite_ser_data
      (_XySeriesXmlRewriter._rewrite_ser_data s sd) sd
    = _XySeriesXmlRewriter._rewrite_ser_data s sd := by
  show Ser.mk _ _ _ = Ser.mk _ _ _
  unfold _XySeriesXmlRewriter._rewrite_ser_data
  simp only
  congr 1
  rw [removeTag_three, removeTag_three]
  rw [filter_ins3 _ _ _ _ rfl rfl rfl]
  rw [filter_self_idem]

/-- The bubble series rewriter is idempotent on a series element. -/
theorem bubble_rewrite_idem (s : Ser) (sd : BubbleSeriesData) :
    _BubbleSeriesXmlRewriter._rewrite_ser_data
      (_BubbleSeriesXmlRewriter._rewrite_ser_data s sd) sd
    = _BubbleSeriesXmlRewriter._rewrite_ser_data s sd := by
  show Ser.mk _ _ _ = Ser.mk _ _ _
  unfold _BubbleSeriesXmlRewriter._rewrite_ser_data
  simp only
  congr 1
  rw [removeTag_four, removeTag_four]
  rw [filter_ins4 _ _ _ _ _ rfl rfl rfl rfl]
  rw [filter_self_idem]

/-- Core of the reconciliation idempotence: one `replace_series_data`
pass fixes the tree for any idempotent per-series rewrite function. -/
theorem replace_with_idem {α : Type} (f : Ser → α → Ser)
    (hf : ∀ s d, f (f s d) d = f s d) (ds : List α) (cs t1 : ChartSpace)
    (h : replace_series_data_with f ds cs = some t1) :
    (replace_series_data_with f ds t1 = some t1 ∧
      t1.plotArea.sers.length = ds.length) ∧
      t1.date_1904 = cs.date_1904 := by
  unfold replace_series_data_with at h
  cases hadj : _adjust_ser_count cs.plotArea ds.length with
  | none => rw [hadj] at h; exact absurd h (by simp)
  | some pa =>
      rw [hadj] at h
      have ht1 : t1 = { cs with plotArea := ⟨rewriteXCharts f pa.xCharts ds⟩ } := by
        cases h; rfl
      subst ht1
      have hlen : (PlotArea.mk (rewriteXCharts f pa.xCharts ds)).sers.length
          = ds.length := by
        show (sersOf (rewriteXCharts f pa.xCharts ds)).length = ds.length
        rw [sersOf_rewriteXCharts_length]
        exact adjust_ser_count_length hadj
      refine ⟨⟨?_, hlen⟩, rfl⟩
      unfold replace_series_data_with
      have hadj2 : _adjust_ser_count (PlotArea.mk (rewriteXCharts f pa.xCharts ds))
          ds.length = some (PlotArea.mk (rewriteXCharts f pa.xCharts ds)) := by
        unfold _adjust_ser_count
        rw [if_neg (by omega), if_neg (by omega)]
      rw [hadj2]
      show some (ChartSpace.mk cs.date_1904
        (PlotArea.mk (rewriteXCharts f (rewriteXCharts f pa.xCharts ds) ds))) = _
      rw [rewriteXCharts_idem f hf]

/-- The category rewriter leaves non-data children untouched. -/
theorem cat_rewrite_preserves (d4 : Bool) (s : Ser) (sd : CategorySeriesData) :
    (_CategorySeriesXmlRewriter._rewrite_ser_data d4 s sd).children.filter
        keepNonCatData
      = s.children.filter keepNonCatData := by
  unfold _CategorySeriesXmlRewriter._rewrite_ser_data
  simp only
  rw [removeTag_three]
  rw [filter_ins3 _ _ _ _ rfl rfl rfl]
  rw [List.filter_filter]
  congr 1
  funext a
  simp only [keepNonCatData, bne]
  cases htx : (a.tag == "c:tx") <;> cases hcat : (a.tag == "c:cat")
    <;> cases hval : (a.tag == "c:val") <;> simp [htx, hcat, hval]

/-- The XY rewriter leaves non-data children untouched. -/
theorem xy_rewrite_preserves (s : Ser) (sd : XySeriesData) :
    (_XySeriesXmlRewriter._rewrite_ser_data s sd).children.filter keepNonXyData
      = s.children.filter keepNonXyData := by
  unfold _XySeriesXmlRewriter._rewrite_ser_data
  simp only
  rw [removeTag_three]
  rw [filter_ins3 _ _ _ _ rfl rfl rfl]
  rw [List.filter_filter]
  congr 1
  funext a
  simp only [keepNonXyData, bne]
  cases htx : (a.tag == "c:tx") <;> cases hx : (a.tag == "c:xVal")
    <;> cases hy : (a.tag == "c:yVal") <;> simp [htx, hx, hy]

/-- The bubble rewriter leaves non-data children untouched. -/
theorem bubble_rewrite_preserves (s : Ser) (sd : BubbleSeriesData) :
    (_BubbleSeriesXmlRewriter._rewrite_ser_data s sd).children.filter
        keepNonBubbleData
      = s.children.filter keepNonBubbleData := by
  unfold _BubbleSeriesXmlRewriter._rewrite_ser_data
  simp only
  rw [removeTag_four]
  rw [filter_ins4 _ _ _ _ _ rfl rfl rfl rfl]
  rw [List.filter_filter]
  congr 1
  funext a
  simp only [keepNonBubbleData, bne]
  cases htx : (a.tag == "c:tx") <;> cases hx : (a.tag == "c:xVal")
    <;> cases hy : (a.tag == "c:yVal") <;> cases hb : (a.tag == "c:bubbleSize")
    <;> simp [htx, hx, hy, hb]

theorem foldl_append_shift (l : List String) :
    ∀ (x y : String), l.foldl (· ++ ·) (x ++ y) = x ++ l.foldl (· ++ ·) y := by
  induction l with
  | nil => intro x y; rfl
  | cons a as ih =>
      intro x y
      simp only [List.foldl]
      rw [String.append_assoc, ih]

theorem join_cons (a : String) (l : List String) :
    String.join (a :: l) = a ++ String.join l := by
  show l.foldl (· ++ ·) ("" ++ a) = a ++ l.foldl (· ++ ·) ""
  have h1 : "" ++ a = a ++ "" := by simp
  rw [h1, foldl_append_shift]

/-- The point-emission loop of `pt_xml`, characterized declaratively: one
`c:pt` element per index whose value is present, in increasing index
order, appended to the accumulator. -/
theorem pt_loop_spec :
    ∀ (values : List (Option String)) (i : Nat) (acc : String),
      _BaseSeriesXmlWriter.pt_loop i values acc =
        acc ++ String.join ((List.enumFrom i values).filterMap
          (fun p => p.2.map (_BaseSeriesXmlWriter.pt_tmpl p.1))) := by
  intro values
  induction values with
  | nil => intro i acc; simp [_BaseSeriesXmlWriter.pt_loop, String.join]
  | cons v rest ih =>
      intro i acc
      cases v with
      | none =>
          show _BaseSeriesXmlWriter.pt_loop (i + 1) rest acc = _
          rw [ih]
          rfl
      | some s =>
          show _BaseSeriesXmlWriter.pt_loop (i + 1) rest
            (acc ++ _BaseSeriesXmlWriter.pt_tmpl i s) = _
          rw [ih]
          show _ = acc ++ String.join (_BaseSeriesXmlWriter.pt_tmpl i s :: _)
          rw [join_cons, String.append_assoc]

/-- The point-emission loop of `_val_pt_xml`, characterized
declaratively. -/
theorem val_pt_loop_spec :
    ∀ (values : List (Option String)) (i : Nat),
      _CategorySeriesXmlWriter.val_pt_loop i values =
        String.join ((List.enumFrom i values).filterMap
          (fun p => p.2.map (_BaseSeriesXmlWriter.pt_tmpl p.1))) := by
  intro values
  induction values with
  | nil => intro i; simp [_CategorySeriesXmlWriter.val_pt_loop, String.join]
  | cons v rest ih =>
      intro i
      cases v with
      | none =>
          show _CategorySeriesXmlWriter.val_pt_loop (i + 1) rest = _
          rw [ih]
          rfl
      | some s =>
          show s!"                <c:pt idx=\"{i}\">\n"
            ++ s!"                  <c:v>{s}</c:v>\n"
            ++ "                </c:pt>\n"
            ++ _CategorySeriesXmlWriter.val_pt_loop (i + 1) rest = _
          rw [ih]
          show _ = String.join (_BaseSeriesXmlWriter.pt_tmpl i s :: _)
          rw [join_cons]
          simp [_BaseSeriesXmlWriter.pt_tmpl, String.append_assoc]

/-- C1: for every reconcile count adjustment on a plot area holding at
least one series element, the adjustment succeeds and afterwards the
series-element count equals the new series-list length; when the new list
is longer by `d`, exactly `d` clones of the last series element are
appended in place (each clone following its source, with `idx`/`order`
one above the running maximum); when it is shorter by `d`, the last `d`
series elements are removed and every plot-group element left with zero
series children is removed. -/
theorem C1_reconcile_count (pa : PlotArea) (n : Nat) (h : pa.sers ≠ []) :
    ∃ pa', _adjust_ser_count pa n = some pa' ∧
      pa'.sers.length = n ∧
      (pa.sers.length < n →
        pa'.sers = pa.sers ++ (List.range (n - pa.sers.length)).map (fun i =>
          { pa.sers.getLast?.getD dummySer with
              idx := maxIdx pa.sers + 1 + i,
              order := maxOrder pa.sers + 1 + i })) ∧
      (n < pa.sers.length →
        pa'.sers = pa.sers.take n ∧ ∀ xc ∈ pa'.xCharts, xc.sers ≠ []) := by
  unfold _adjust_ser_count
  by_cases h1 : pa.sers.length < n
  · obtain ⟨pa', hrun, hchar⟩ := add_cloned_sers_spec (n - pa.sers.length) pa h
    refine ⟨pa', by rw [if_pos h1]; exact hrun, ?_, ?_, ?_⟩
    · rw [hchar]; simp; omega
    · intro _; exact hchar
    · intro h2; omega
  · by_cases h2 : n < pa.sers.length
    · obtain ⟨htake, hne⟩ := trim_ser_count_by_spec pa (pa.sers.length - n)
      refine ⟨_, by rw [if_neg h1, if_pos h2], ?_, ?_, ?_⟩
      · rw [htake]
        have : pa.sers.length - (pa.sers.length - n) = n := by omega
        rw [this]
        simp
        omega
      · intro hc; omega
      · intro _
        have : pa.sers.length - (pa.sers.length - n) = n := by omega
        rw [this] at htake
        exact ⟨htake, hne⟩
    · refine ⟨pa, by rw [if_neg h1, if_neg h2], by omega, ?_, ?_⟩
      · intro hc; omega
      · intro hc; omega

theorem C1_reconcile_count_witness :
    paC1.sers ≠ [] ∧
    (∃ pa', _adjust_ser_count paC1 3 = some pa' ∧
      pa'.sers.length = 3 ∧
      (paC1.sers.length < 3 →
        pa'.sers = paC1.sers ++ (List.range (3 - paC1.sers.length)).map (fun i =>
          { paC1.sers.getLast?.getD dummySer with
              idx := maxIdx paC1.sers + 1 + i,
              order := maxOrder paC1.sers + 1 + i })) ∧
      (3 < paC1.sers.length →
        pa'.sers = paC1.sers.take 3 ∧ ∀ xc ∈ pa'.xCharts, xc.sers ≠ [])) :=
  ⟨by decide, C1_reconcile_count paC1 3 (by decide)⟩

/-- C2: each family's series-data rewrite replaces only the data-owned
child fragments of the series element (`c:tx`/`c:cat`/`c:val` for
category data; `c:tx`/`c:xVal`/`c:yVal` for XY data, plus
`c:bubbleSize` for bubble data); every other child element, and the
`c:idx` and `c:order` values, are left byte for byte unchanged. -/
theorem C2_rewrite_preserves_formatting :
    (∀ (d4 : Bool) (ser : Ser) (sd : CategorySeriesData),
      (_CategorySeriesXmlRewriter._rewrite_ser_data d4 ser sd).children.filter
          keepNonCatData = ser.children.filter keepNonCatData
      ∧ (_CategorySeriesXmlRewriter._rewrite_ser_data d4 ser sd).idx = ser.idx
      ∧ (_CategorySeriesXmlRewriter._rewrite_ser_data d4 ser sd).order = ser.order)
    ∧ (∀ (ser : Ser) (sd : XySeriesData),
      (_XySeriesXmlRewriter._rewrite_ser_data ser sd).children.filter
          keepNonXyData = ser.children.filter keepNonXyData
      ∧ (_XySeriesXmlRewriter._rewrite_ser_data ser sd).idx = ser.idx
      ∧ (_XySeriesXmlRewriter._rewrite_ser_data ser sd).order = ser.order)
    ∧ (∀ (ser : Ser) (sd : BubbleSeriesData),
      (_BubbleSeriesXmlRewriter._rewrite_ser_data ser sd).children.filter
          keepNonBubbleData = ser.children.filter keepNonBubbleData
      ∧ (_BubbleSeriesXmlRewriter._rewrite_ser_data ser sd).idx = ser.idx
      ∧ (_BubbleSeriesXmlRewriter._rewrite_ser_data ser sd).order = ser.order) := by
  refine ⟨fun d4 ser sd => ⟨cat_rewrite_preserves d4 ser sd, rfl, rfl⟩,
    fun ser sd => ⟨xy_rewrite_preserves ser sd, rfl, rfl⟩,
    fun ser sd => ⟨bubble_rewrite_preserves ser sd, rfl, rfl⟩⟩

/-- C8: for every series value sequence (possibly with missing entries),
the emitted point cache has a `ptCount` equal to the full sequence
length, and contains a `c:pt` element exactly for each index whose value
is present, in increasing index order; missing values produce no point
element and do not reduce the count.  Stated for the shared `pt_xml`
emitter and for the `c:val` fragment of the category series writer. -/
theorem C8_sparse_values :
    (∀ values : List (Option String),
      _BaseSeriesXmlWriter.pt_xml values =
        _BaseSeriesXmlWriter.ptCount_line values.length ++
          String.join (values.enum.filterMap
            (fun p => p.2.map (_BaseSeriesXmlWriter.pt_tmpl p.1))))
    ∧ (∀ sd : CategorySeriesData,
      _CategorySeriesXmlWriter.val_xml sd =
        _CategorySeriesXmlWriter.val_tmpl "" sd.values_ref sd.number_format
          sd.values.length
          (String.join (sd.values.enum.filterMap
            (fun p => p.2.map (_BaseSeriesXmlWriter.pt_tmpl p.1))))) := by
  constructor
  · intro values
    show _BaseSeriesXmlWriter.pt_loop 0 values _ = _
    rw [pt_loop_spec]
    rfl
  · intro sd
    show _CategorySeriesXmlWriter.val_tmpl "" sd.values_ref sd.number_format
      sd.values.length (_CategorySeriesXmlWriter.val_pt_loop 0 sd.values) = _
    rw [val_pt_loop_spec]
    rfl

/-- C10: reconciliation is idempotent — when a `replace_series_data` pass
succeeds, running the same rewriter family again with the same chart data
leaves the chart-space tree identical: the second count adjustment is a
no-op and every series is rewritten to identical content.  The series
count after the first pass equals the chart-data series count. -/
theorem C10_replace_idempotent (fam : RewriterCls) (cd : ChartData)
    (cs t1 : ChartSpace) (h : replace_series_data fam cd cs = some t1) :
    replace_series_data fam cd t1 = some t1 ∧
      t1.plotArea.sers.length = cd.length := by
  cases fam with
  | category =>
      cases cd with
      | category cats sers =>
          simp only [replace_series_data] at h ⊢
          obtain ⟨⟨hidem, hlen⟩, hdate⟩ := replace_with_idem
            (_CategorySeriesXmlRewriter._rewrite_ser_data cs.date_1904)
            (fun s d => cat_rewrite_idem cs.date_1904 s d) sers cs t1 h
          rw [hdate]
          exact ⟨hidem, hlen⟩
      | xy sers => simp [replace_series_data] at h
      | bubble sers => simp [replace_series_data] at h
  | xy =>
      cases cd with
      | category cats sers => simp [replace_series_data] at h
      | xy sers =>
          simp only [replace_series_data] at h ⊢
          obtain ⟨⟨hidem, hlen⟩, _⟩ := replace_with_idem
            _XySeriesXmlRewriter._rewrite_ser_data
            xy_rewrite_idem sers cs t1 h
          exact ⟨hidem, hlen⟩
      | bubble sers =>
          simp only [replace_series_data] at h ⊢
          obtain ⟨⟨hidem, hlen⟩, _⟩ := replace_with_idem
            _XySeriesXmlRewriter._rewrite_ser_data
            xy_rewrite_idem (sers.map BubbleSeriesData.toXySeriesData) cs t1 h
          refine ⟨hidem, ?_⟩
          rw [hlen]
          simp [ChartData.length]
  | bubble =>
      cases cd with
      | category cats sers => simp [replace_series_data] at h
      | xy sers => simp [replace_series_data] at h
      | bubble sers =>
          simp only [replace_series_data] at h ⊢
          obtain ⟨⟨hidem, hlen⟩, _⟩ := replace_with_idem
            _BubbleSeriesXmlRewriter._rewrite_ser_data
            bubble_rewrite_idem sers cs t1 h
          exact ⟨hidem, hlen⟩

theorem C10_replace_idempotent_witness :
    replace_series_data .category cdC10 csC10 =
      some ((replace_series_data .category cdC10 csC10).getD csC10) ∧
    (replace_series_data .category cdC10
        ((replace_series_data .category cdC10 csC10).getD csC10) =
      some ((replace_series_data .category cdC10 csC10).getD csC10) ∧
     ((replace_series_data .category cdC10 csC10).getD csC10).plotArea.sers.length
       = cdC10.length) := by
  refine ⟨?_, ?_⟩
  · rfl
  · exact C10_replace_idempotent .category cdC10 csC10 _ (by rfl)

/-- C4 counterexample: `STOCK_HLC` has no plot-writer entry, yet the
reconciler-family dispatch does not fail for it — being a total lookup
with a default, it silently yields the category rewriter. -/
theorem C4_counterexample :
    plotWriterCls .STOCK_HLC = none ∧
    SeriesXmlRewriterFactory .STOCK_HLC = RewriterCls.category := by
  constructor <;> rfl

/-- C4 (amended): a chart type without a plot-writer entry makes
`PlotXmlWriter` fail hard with the unsupported-type error, but the
reconciler-family dispatch never fails: the same chart type silently
falls back to the default category rewriter. -/
theorem C4_dispatch (ct : XL_CHART_TYPE) (h : plotWriterCls ct = none) :
    (∀ (cd : ChartData) (plot : Plot),
      PlotXmlWriter ct cd plot = Except.error
        "NotImplementedError: XML writer for chart type not yet implemented")
    ∧ SeriesXmlRewriterFactory ct = RewriterCls.category := by
  constructor
  · intro cd plot
    unfold PlotXmlWriter
    rw [h]
  · cases ct <;> simp_all [plotWriterCls, SeriesXmlRewriterFactory]

theorem C4_dispatch_witness :
    plotWriterCls .SURFACE = none ∧
    ((∀ (cd : ChartData) (plot : Plot),
      PlotXmlWriter .SURFACE cd plot = Except.error
        "NotImplementedError: XML writer for chart type not yet implemented")
    ∧ SeriesXmlRewriterFactory .SURFACE = RewriterCls.category) :=
  ⟨rfl, C4_dispatch .SURFACE rfl⟩

/-- C5 (amended): the bar/column and line plot writers emit exactly one
series fragment per series of the plot, in plot order; the area,
doughnut, radar, scatter and bubble writers instead emit one fragment
per series of the whole chart data; the pie writer emits exactly one
fragment, built from the first chart-data series. -/
theorem C5_ser_emission :
    (∀ plot : Plot, _BarChartXmlWriter._ser_fragments plot =
      plot.series_seq.map _BarChartXmlWriter.serFragment)
    ∧ (∀ (ct : XL_CHART_TYPE) (plot : Plot),
      _LineChartXmlWriter._ser_fragments ct plot =
        plot.series_seq.map (_LineChartXmlWriter.serFragment ct))
    ∧ (∀ (cats : CategoryData) (sers : List CategorySeriesData),
      _AreaChartXmlWriter._ser_fragments (.category cats sers) =
        Except.ok (sers.map _AreaChartXmlWriter.serFragment))
    ∧ (∀ (ct : XL_CHART_TYPE) (cats : CategoryData)
        (sers : List CategorySeriesData),
      _DoughnutChartXmlWriter._ser_fragments ct (.category cats sers) =
        Except.ok (sers.map (_DoughnutChartXmlWriter.serFragment ct))
      ∧ _RadarChartXmlWriter._ser_fragments ct (.category cats sers) =
        Except.ok (sers.map (_RadarChartXmlWriter.serFragment ct)))
    ∧ (∀ (ct : XL_CHART_TYPE) (sers : List XySeriesData),
      _XyChartXmlWriter._ser_fragments ct (.xy sers) =
        Except.ok (sers.map (_XyChartXmlWriter.serFragment ct)))
    ∧ (∀ (ct : XL_CHART_TYPE) (sers : List BubbleSeriesData),
      _BubbleChartXmlWriter._ser_fragments ct (.bubble sers) =
        Except.ok (sers.map (_BubbleChartXmlWriter.serFragment ct)))
    ∧ (∀ (ct : XL_CHART_TYPE) (cats : CategoryData)
        (s0 : CategorySeriesData) (rest : List CategorySeriesData),
      _PieChartXmlWriter._ser_fragments ct (.category cats (s0 :: rest)) =
        Except.ok [_PieChartXmlWriter.serFragment ct s0]) := by
  exact ⟨fun _ => rfl, fun _ _ => rfl, fun _ _ => rfl,
    fun _ _ _ => ⟨rfl, rfl⟩, fun _ _ => rfl, fun _ _ => rfl,
    fun _ _ _ _ => rfl⟩

/-- C5 counterexample: the area plot writer emits two series fragments
for a plot that owns a single series — it iterates the whole chart data,
so the count does not match the plot's series list. -/
theorem C5_counterexample :
    (_AreaChartXmlWriter._ser_fragments cdC5).map List.length = Except.ok 2
    ∧ plotC5.series_seq.length = 1 := by
  constructor <;> rfl

/-- C6 counterexample: the document writer happily produces a document
for a chart with no plots — there is no empty-chart configuration
error. -/
theorem C6_counterexample : isOkE (ChartXmlWriter.xml chartC6) = true := by
  rfl

/-- C6 (amended): rendering a chart with no plots does not fail when the
chart data is category-shaped — the writer emits a chart-space document
whose plot area holds no plot-group element (and, `_has_axes` still being
true, an axes block).  The only failure an empty chart can hit is the
axis writer's unknown-chart-data error for non-category data. -/
theorem C6_empty_chart_renders :
    (∀ (cats : CategoryData) (sers : List CategorySeriesData) (x y : Nat)
        (sxa sya : Option Nat),
      isOkE (ChartXmlWriter.xml ⟨.category cats sers, [], x, y, sxa, sya, true⟩)
          = true
      ∧ ChartXmlWriter.plots_xml ⟨.category cats sers, [], x, y, sxa, sya, true⟩
          = Except.ok "")
    ∧ (∀ (xsers : List XySeriesData) (x y : Nat) (sxa sya : Option Nat),
      isOkE (ChartXmlWriter.xml ⟨.xy xsers, [], x, y, sxa, sya, true⟩)
          = false) := by
  constructor
  · intro cats sers x y sxa sya
    constructor
    · cases cats <;> cases sya <;> rfl
    · rfl
  · intro xsers x y sxa sya
    rfl

/-- C3 (amended): for every chart type of the category-shaped families,
the document writer runs to completion on category chart data (any
category kind, any axis ids, axes block present or not), provided the
data has at least one series (the pie writer reads the first series). -/
theorem C3_category_render_total (ct : XL_CHART_TYPE)
    (hct : ct ∈ categoryChartTypes) (cats : CategoryData)
    (sers : List CategorySeriesData) (pser : List CategorySeriesData)
    (sa : Bool) (px py : Option Nat) (x y : Nat) (sxa sya : Option Nat)
    (ha : Bool) (hs : sers ≠ []) :
    isOkE (ChartXmlWriter.xml ⟨.category cats sers, [⟨ct, pser, sa, px, py⟩],
      x, y, sxa, sya, ha⟩) = true := by
  fin_cases hct <;>
    (cases sers with
     | nil => exact absurd rfl hs
     | cons s0 rest => cases cats <;> cases ha <;> cases sya <;> rfl)

theorem C3_category_render_total_witness :
    (XL_CHART_TYPE.PIE ∈ categoryChartTypes ∧ [serC3w] ≠ []) ∧
    isOkE (ChartXmlWriter.xml ⟨.category (.strings ["m"]) [serC3w],
      [⟨.PIE, [serC3w], false, none, none⟩],
      7, 8, none, none, true⟩) = true :=
  ⟨⟨by decide, by decide⟩,
    C3_category_render_total .PIE (by decide) (.strings ["m"]) [serC3w]
      [serC3w] false none none 7 8 none none true (by decide)⟩

/-- C3 counterexample: for the scatter (XY) chart kind the document
writer does not complete — axis synthesis aborts because the chart data
is not category-shaped. -/
theorem C3_counterexample :
    ChartXmlWriter.xml chartC3 =
      Except.error "NotImplementedError: unknown chart_data type" := by
  rfl

/-- C9 counterexample: with the allocation outcome drawing 5 every time,
the primary x and y axis ids coincide, and the lazily allocated
secondary pair collides with the primary pair — nothing in the
construction prevents it. -/
theorem C9_counterexample :
    chartC9.x_axis_id = chartC9.y_axis_id ∧
    (∃ out, Chart.add_plot chartC9 plotC9 [5, 5] = Except.ok out ∧
      out.1.secondary_x_axis_id = some chartC9.x_axis_id ∧
      out.1.secondary_y_axis_id = some chartC9.y_axis_id) := by
  refine ⟨rfl, ⟨_, rfl, rfl, rfl⟩⟩

/-- C9 (amended): every allocated axis id is a 24-bit value (below
`2^24`), both the primary pair drawn at construction and the secondary
pair drawn lazily by `add_plot`; distinctness, however, is not
guaranteed by construction. -/
theorem C9_axis_ids_24bit :
    (∀ (data : ChartData) (rng : List Nat),
      (Chart.init data rng).1.x_axis_id < 16777216 ∧
      (Chart.init data rng).1.y_axis_id < 16777216)
    ∧ (∀ (c : Chart) (p : Plot) (rng : List Nat) (out : Chart × List Nat),
      Chart.add_plot c p rng = Except.ok out →
      c.secondary_x_axis_id = none → c.secondary_y_axis_id = none →
      ∀ m, (out.1.secondary_x_axis_id = some m ∨
            out.1.secondary_y_axis_id = some m) → m < 16777216) := by
  constructor
  · intro data rng
    exact ⟨Nat.mod_lt _ (by norm_num), Nat.mod_lt _ (by norm_num)⟩
  · intro c p rng out h hx hy m hm
    unfold Chart.add_plot at h
    cases htab : Plot.has_axes_table p.chart_type with
    | none =>
        rw [htab] at h
        simp [Bind.bind, Except.bind] at h
    | some pha =>
        rw [htab] at h
        simp only [Bind.bind, Except.bind] at h
        by_cases hmix : c.plots.length > 0 ∧ c.has_axes ≠ pha
        · rw [if_pos hmix] at h
          simp at h
        · rw [if_neg hmix] at h
          by_cases hpha : pha = true
          · rw [if_pos hpha] at h
            injection h with h1
            subst h1
            by_cases hsec : p.secondary_axis = true ∧ c.secondary_x_axis_id = none
            · rcases hm with hm | hm <;>
                · simp only [if_pos hsec] at hm
                  injection hm with hm2
                  subst hm2
                  exact Nat.mod_lt _ (by norm_num)
            · rcases hm with hm | hm <;>
                · simp only [if_neg hsec] at hm
                  simp_all
          · rw [if_neg hpha] at h
            injection h with h1
            subst h1
            rcases hm with hm | hm <;> simp_all

theorem C9_axis_ids_24bit_witness :
    (Chart.add_plot chartC9w plotC9 [99999999, 123] = Except.ok outC9w ∧
      chartC9w.secondary_x_axis_id = none ∧
      chartC9w.secondary_y_axis_id = none) ∧
    (∀ m, (outC9w.1.secondary_x_axis_id = some m ∨
           outC9w.1.secondary_y_axis_id = some m) → m < 16777216) :=
  ⟨⟨rfl, rfl, rfl⟩,
    C9_axis_ids_24bit.2 chartC9w plotC9 [99999999, 123] outC9w rfl rfl rfl⟩

/-- C7 (amended): the primary value axis sits on the left edge and
crosses at `autoZero`; the secondary value axis sits on the right edge
and crosses at `max`; every category or date axis sits on the bottom
edge; a secondary *date* axis is emitted hidden (`delete` = 1), but a
secondary plain-category axis is emitted with `delete` = 0 — it is not
hidden. -/
theorem C7_axes_layout :
    (∀ aid cid : Option Nat,
      occursIn "<c:axPos val=\"l\"/>" (AxesXmlWriter._y_axis_xml aid cid false)
      ∧ occursIn "<c:crosses val=\"autoZero\"/>"
          (AxesXmlWriter._y_axis_xml aid cid false)
      ∧ occursIn "<c:axPos val=\"r\"/>" (AxesXmlWriter._y_axis_xml aid cid true)
      ∧ occursIn "<c:crosses val=\"max\"/>"
          (AxesXmlWriter._y_axis_xml aid cid true))
    ∧ (∀ (cats : CategoryData) (sers : List CategorySeriesData)
        (aid cid : Option Nat) (secondary : Bool),
        cats.are_dates = false →
        ∃ s, AxesXmlWriter._x_axis_xml (.category cats sers) aid cid secondary
            = Except.ok s
          ∧ occursIn "<c:axPos val=\"b\"/>" s
          ∧ occursIn "<c:delete val=\"0\"/>" s)
    ∧ (∀ (nf : String) (vals : List String)
        (sers : List CategorySeriesData) (aid cid : Option Nat),
        ∃ s, AxesXmlWriter._x_axis_xml (.category (.dates nf vals) sers)
            aid cid true = Except.ok s
          ∧ occursIn "<c:axPos val=\"b\"/>" s
          ∧ occursIn "<c:delete val=\"1\"/>" s) := by
  refine ⟨fun aid cid => ⟨?_, ?_, ?_, ?_⟩, ?_, ?_⟩
  · simp only [AxesXmlWriter._y_axis_xml, AxesXmlWriter._y_axis_pos,
      Bool.false_eq_true, if_false]
    apply occursIn_left
    apply occursIn_left
    apply occursIn_left
    apply occursIn_left
    apply occursIn_left
    apply occursIn_left
    apply occursIn_left
    apply occursIn_left
    apply occursIn_left
    apply occursIn_right
    exact ⟨"        ", "\n", by rfl⟩
  · simp only [AxesXmlWriter._y_axis_xml, AxesXmlWriter._y_axis_pos,
      Bool.false_eq_true, if_false]
    apply occursIn_left
    apply occursIn_left
    apply occursIn_right
    exact ⟨"        ", "\n", by rfl⟩
  · simp only [AxesXmlWriter._y_axis_xml, AxesXmlWriter._y_axis_pos, if_true]
    apply occursIn_left
    apply occursIn_left
    apply occursIn_left
    apply occursIn_left
    apply occursIn_left
    apply occursIn_left
    apply occursIn_left
    apply occursIn_left
    apply occursIn_left
    apply occursIn_right
    exact ⟨"        ", "\n", by rfl⟩
  · simp only [AxesXmlWriter._y_axis_xml, AxesXmlWriter._y_axis_pos, if_true]
    apply occursIn_left
    apply occursIn_left
    apply occursIn_right
    exact ⟨"        ", "\n", by rfl⟩
  · intro cats sers aid cid secondary hnd
    cases cats with
    | dates nf vals => simp [CategoryData.are_dates] at hnd
    | strings labels =>
        refine ⟨_, rfl, ?_, ?_⟩
        · apply occursIn_left
          apply occursIn_left
          apply occursIn_left
          apply occursIn_left
          apply occursIn_left
          apply occursIn_left
          apply occursIn_left
          apply occursIn_left
          apply occursIn_left
          apply occursIn_right
          exact ⟨"        ", "\n", by rfl⟩
        · apply occursIn_left
          apply occursIn_left
          apply occursIn_left
          apply occursIn_left
          apply occursIn_left
          apply occursIn_left
          apply occursIn_left
          apply occursIn_left
          apply occursIn_left
          apply occursIn_left
          apply occursIn_right
          exact ⟨"        ", "\n", by rfl⟩
    | numeric nf vals =>
        refine ⟨_, rfl, ?_, ?_⟩
        · apply occursIn_left
          apply occursIn_left
          apply occursIn_left
          apply occursIn_left
          apply occursIn_left
          apply occursIn_left
          apply occursIn_left
          apply occursIn_left
          apply occursIn_left
          apply occursIn_right
          exact ⟨"        ", "\n", by rfl⟩
        · apply occursIn_left
          apply occursIn_left
          apply occursIn_left
          apply occursIn_left
          apply occursIn_left
          apply occursIn_left
          apply occursIn_left
          apply occursIn_left
          apply occursIn_left
          apply occursIn_left
          apply occursIn_right
          exact ⟨"        ", "\n", by rfl⟩
    | multiLevel n lvls =>
        refine ⟨_, rfl, ?_, ?_⟩
        · apply occursIn_left
          apply occursIn_left
          apply occursIn_left
          apply occursIn_left
          apply occursIn_left
          apply occursIn_left
          apply occursIn_left
          apply occursIn_left
          apply occursIn_left
          apply occursIn_right
          exact ⟨"        ", "\n", by rfl⟩
        · apply occursIn_left
          apply occursIn_left
          apply occursIn_left
          apply occursIn_left
          apply occursIn_left
          apply occursIn_left
          apply occursIn_left
          apply occursIn_left
          apply occursIn_left
          apply occursIn_left
          apply occursIn_right
          exact ⟨"        ", "\n", by rfl⟩
  · intro nf vals sers aid cid
    refine ⟨_, rfl, ?_, ?_⟩
    · apply occursIn_left
      apply occursIn_left
      apply occursIn_left
      apply occursIn_left
      apply occursIn_left
      apply occursIn_left
      apply occursIn_left
      apply occursIn_left
      apply occursIn_left
      apply occursIn_right
      exact ⟨"        ", "\n", by rfl⟩
    · apply occursIn_left
      apply occursIn_left
      apply occursIn_left
      apply occursIn_left
      apply occursIn_left
      apply occursIn_left
      apply occursIn_left
      apply occursIn_left
      apply occursIn_left
      apply occursIn_left
      apply occursIn_right
      exact ⟨"        ", "\n", by rfl⟩

theorem C7_axes_layout_witness :
    (CategoryData.strings ["x"]).are_dates = false ∧
    (∃ s, AxesXmlWriter._x_axis_xml (.category (.strings ["x"]) [])
        (some 1) (some 2) true = Except.ok s
      ∧ occursIn "<c:axPos val=\"b\"/>" s
      ∧ occursIn "<c:delete val=\"0\"/>" s) :=
  ⟨by decide,
    C7_axes_layout.2.1 (.strings ["x"]) [] (some 1) (some 2) true (by decide)⟩

/-- C7 counterexample: the secondary plain-category axis is not marked
hidden — its markup contains `delete` = 0 and no `delete` = 1. -/
theorem C7_counterexample :
    ¬ occursIn "<c:delete val=\"1\"/>" c7axC
    ∧ occursIn "<c:delete val=\"0\"/>" c7axC := by
  constructor
  · exact not_occursIn_of_containsSub_false (by decide)
  · exact occursIn_of_containsSub (by decide)
